import Mathlib

/-!
Verification of the adaptive-moments (SdssShape) core of LSST `meas_base`
against its natural-language specification.

The C++ source (`SdssShape.cc`) is shallowly embedded: IEEE doubles are
modelled as exact real numbers, except that quiet-NaN propagation (which the
code uses as a sentinel in `getWeights` and for unset results) is modelled
explicitly by the type `FV` below.  Floating-point rounding, infinities and
evaluation order of sums are not modelled; all arithmetic is exact.
-/

namespace MeasBase

/-- A double that is either quiet NaN or a finite real value.  Models the
C++ use of `std::numeric_limits<double>::quiet_NaN()` as a sentinel. -/
inductive FV where
  | nan : FV
  | fin (x : ℝ) : FV

/-- `isnan` on a modelled double. -/
def FV.isnan : FV → Bool
  | .nan => true
  | .fin _ => false

/-- Read the value of a modelled double that is known (on the executed
path) to be finite; NaN maps to a junk value, never read on real paths. -/
noncomputable def FV.val : FV → ℝ
  | .nan => 0
  | .fin x => x

/-- NaN-propagating multiplication. -/
noncomputable def FV.mul : FV → FV → FV
  | .fin x, .fin y => .fin (x * y)
  | _, _ => .nan

/-- NaN-propagating subtraction. -/
noncomputable def FV.sub : FV → FV → FV
  | .fin x, .fin y => .fin (x - y)
  | _, _ => .nan

/-- NaN-propagating addition. -/
noncomputable def FV.add : FV → FV → FV
  | .fin x, .fin y => .fin (x + y)
  | _, _ => .nan

/-- NaN-propagating division (exact: a finite nonzero denominator divides
exactly; division by the finite value 0 is not exercised on modelled paths). -/
noncomputable def FV.div : FV → FV → FV
  | .fin x, .fin y => .fin (x / y)
  | _, _ => .nan

/-- C++ `std::sqrt` on a modelled double: NaN in, or a negative argument,
gives NaN. -/
noncomputable def FV.sqrtv : FV → FV
  | .nan => .nan
  | .fin x => if x < 0 then .nan else .fin (Real.sqrt x)

/-- C++ `<` on doubles: any comparison with NaN is false. -/
noncomputable def FV.ltb : FV → FV → Bool
  | .fin x, .fin y => if x < y then true else false
  | _, _ => false

/-- C++ `>` on doubles: any comparison with NaN is false. -/
noncomputable def FV.gtb : FV → FV → Bool
  | .fin x, .fin y => if y < x then true else false
  | _, _ => false

/-- C++ `!=` on doubles: NaN compares unequal to everything. -/
noncomputable def FV.neb : FV → FV → Bool
  | .fin x, .fin y => if x = y then false else true
  | _, _ => true

/-- `std::numeric_limits<float>::epsilon()` = 2⁻²³, the threshold used by
`getWeights`. -/
noncomputable def FLT_EPSILON : ℝ := 1 / 8388608

/-- `std::numeric_limits<double>::epsilon()` = 2⁻⁵², the threshold used by
`calc_fisher`. -/
noncomputable def DBL_EPSILON : ℝ := 1 / 4503599627370496

/-- Result of `getWeights`: the `(ok, det)` pair and the three weight
coefficients of the C++ tuple. -/
structure GetWeightsResult where
  ok : Bool
  det : FV
  w11 : FV
  w12 : FV
  w22 : FV

/-- Embedding of `getWeights` (SdssShape.cc lines 153-164) for finite real
inputs: invert a 2x2 symmetric covariance into weights, or fail when the
determinant is below `FLT_EPSILON`.  (For finite real inputs the C++
`isnan(det)` test is always false and is therefore dropped here.) -/
noncomputable def getWeightsR (sigma11 sigma12 sigma22 : ℝ) : GetWeightsResult :=
  if sigma11 * sigma22 - sigma12 * sigma12 < FLT_EPSILON then
    ⟨false, .fin (sigma11 * sigma22 - sigma12 * sigma12), .nan, .nan, .nan⟩
  else
    ⟨true, .fin (sigma11 * sigma22 - sigma12 * sigma12),
      .fin (sigma22 / (sigma11 * sigma22 - sigma12 * sigma12)),
      .fin (-sigma12 / (sigma11 * sigma22 - sigma12 * sigma12)),
      .fin (sigma11 / (sigma11 * sigma22 - sigma12 * sigma12))⟩

/-- Embedding of `getWeights` on possibly-NaN inputs (SdssShape.cc lines
153-164): a NaN input fails immediately with NaN determinant. -/
noncomputable def getWeights (sigma11 sigma12 sigma22 : FV) : GetWeightsResult :=
  match sigma11, sigma12, sigma22 with
  | .fin a, .fin b, .fin c => getWeightsR a b c
  | _, _, _ => ⟨false, .nan, .nan, .nan, .nan⟩

/-- Embedding of `shouldInterp` (SdssShape.cc lines 167-170). -/
noncomputable def shouldInterp (sigma11 sigma22 det : ℝ) : Bool :=
  if sigma11 < 0.25 then true
  else if sigma22 < 0.25 then true
  else if det < 0.0625 then true
  else false

lemma getWeightsR_of_lt {a b c : ℝ} (h : a * c - b * b < FLT_EPSILON) :
    getWeightsR a b c = ⟨false, .fin (a * c - b * b), .nan, .nan, .nan⟩ := by
  unfold getWeightsR
  rw [if_pos h]

lemma getWeightsR_of_ge {a b c : ℝ} (h : ¬ a * c - b * b < FLT_EPSILON) :
    getWeightsR a b c =
      ⟨true, .fin (a * c - b * b), .fin (c / (a * c - b * b)),
        .fin (-b / (a * c - b * b)), .fin (a / (a * c - b * b))⟩ := by
  unfold getWeightsR
  rw [if_neg h]

lemma getWeights_fin (a b c : ℝ) :
    getWeights (.fin a) (.fin b) (.fin c) = getWeightsR a b c := rfl

/-- **C1.** `getWeights` fails exactly when some input is NaN or the
determinant `σ11·σ22 − σ12²` is below machine epsilon (`FLT_EPSILON`); on
success it returns `w11 = σ22/det`, `w12 = −σ12/det`, `w22 = σ11/det`
together with that determinant. -/
theorem getWeights_spec (s11 s12 s22 : FV) :
    ((getWeights s11 s12 s22).ok = false ↔
      (s11.isnan = true ∨ s12.isnan = true ∨ s22.isnan = true ∨
        ∃ a b c : ℝ, s11 = .fin a ∧ s12 = .fin b ∧ s22 = .fin c ∧
          a * c - b * b < FLT_EPSILON)) ∧
    (∀ a b c : ℝ, s11 = .fin a → s12 = .fin b → s22 = .fin c →
      (getWeights s11 s12 s22).ok = true →
      getWeights s11 s12 s22 =
        ⟨true, .fin (a * c - b * b), .fin (c / (a * c - b * b)),
          .fin (-b / (a * c - b * b)), .fin (a / (a * c - b * b))⟩) := by
  constructor
  · cases s11 with
    | nan => simp [getWeights, FV.isnan]
    | fin a =>
      cases s12 with
      | nan => simp [getWeights, FV.isnan]
      | fin b =>
        cases s22 with
        | nan => simp [getWeights, FV.isnan]
        | fin c =>
          simp only [getWeights_fin, FV.isnan]
          by_cases h : a * c - b * b < FLT_EPSILON
          · rw [getWeightsR_of_lt h]
            simp only [Bool.false_eq_true, false_or]
            constructor
            · intro _
              exact ⟨a, b, c, rfl, rfl, rfl, h⟩
            · intro _
              trivial
          · rw [getWeightsR_of_ge h]
            simp only [Bool.true_eq_false, Bool.false_eq_true, false_or, false_iff]
            rintro ⟨a', b', c', ha, hb, hc, hlt⟩
            cases ha; cases hb; cases hc
            exact h hlt
  · intro a b c ha hb hc hok
    cases ha; cases hb; cases hc
    rw [getWeights_fin] at hok ⊢
    by_cases h : a * c - b * b < FLT_EPSILON
    · rw [getWeightsR_of_lt h] at hok
      cases hok
    · exact getWeightsR_of_ge h

/-- Witness for C1 at a concrete input: `getWeights (4, 0, 4)` succeeds and
returns the inverse matrix with determinant 16. -/
theorem getWeights_spec_witness :
    getWeights (.fin 4) (.fin 0) (.fin 4) =
      ⟨true, .fin (4 * 4 - 0 * 0), .fin (4 / (4 * 4 - 0 * 0)),
        .fin (-0 / (4 * 4 - 0 * 0)), .fin (4 / (4 * 4 - 0 * 0))⟩ := by
  have h := (getWeights_spec (.fin 4) (.fin 0) (.fin 4)).2 4 0 4 rfl rfl rfl
  apply h
  rw [getWeights_fin, getWeightsR_of_ge]
  rw [FLT_EPSILON]
  norm_num

/-- **C9 counterexample.** The covariance `W = (8192, 0, 8192)` is positive
definite with determinant `2²⁶ ≥ FLT_EPSILON`, yet applying the solver to the
solver's own output fails (the intermediate determinant is `2⁻²⁶`, below
machine epsilon), so the round trip does not return `W`. -/
theorem getWeights_roundTrip_counterexample :
    ((0:ℝ) < 8192 ∧ FLT_EPSILON ≤ (8192:ℝ) * 8192 - 0 * 0) ∧
    (getWeights (getWeightsR 8192 0 8192).w11 (getWeightsR 8192 0 8192).w12
        (getWeightsR 8192 0 8192).w22).ok = false ∧
    (getWeights (getWeightsR 8192 0 8192).w11 (getWeightsR 8192 0 8192).w12
        (getWeightsR 8192 0 8192).w22).w11 ≠ .fin 8192 := by
  have hgw : getWeightsR (8192:ℝ) 0 8192 =
      ⟨true, .fin (8192 * 8192 - 0 * 0), .fin (8192 / (8192 * 8192 - 0 * 0)),
        .fin (-0 / (8192 * 8192 - 0 * 0)), .fin (8192 / (8192 * 8192 - 0 * 0))⟩ := by
    rw [getWeightsR_of_ge]
    rw [FLT_EPSILON]
    norm_num
  rw [hgw]
  have e1 : ((8192:ℝ) / (8192 * 8192 - 0 * 0)) = 1 / 8192 := by norm_num
  have e2 : (-(0:ℝ) / (8192 * 8192 - 0 * 0)) = 0 := by norm_num
  simp only [e1, e2, getWeights_fin]
  rw [getWeightsR_of_lt (by rw [FLT_EPSILON]; norm_num)]
  refine ⟨⟨by norm_num, by rw [FLT_EPSILON]; norm_num⟩, rfl, ?_⟩
  intro h
  cases h

/-- **C9 (amended).** For a positive-definite covariance whose determinant
`d` satisfies `FLT_EPSILON ≤ d` and also `FLT_EPSILON ≤ 1/d` (so that the
intermediate determinant of the inverse also clears the threshold), applying
the Weight-Matrix Solver to its own output returns the original covariance
exactly; and for a singular (non-positive-determinant) input the solver fails
cleanly, reporting failure and returning NaN sentinels. -/
theorem getWeights_roundTrip (a b c : ℝ)
    (h1 : FLT_EPSILON ≤ a * c - b * b) (h2 : FLT_EPSILON ≤ 1 / (a * c - b * b)) :
    getWeights (getWeightsR a b c).w11 (getWeightsR a b c).w12
        (getWeightsR a b c).w22 =
      ⟨true, .fin (1 / (a * c - b * b)), .fin a, .fin b, .fin c⟩ ∧
    (∀ u v w : ℝ, u * w - v * v ≤ 0 →
      getWeightsR u v w = ⟨false, .fin (u * w - v * v), .nan, .nan, .nan⟩) := by
  have heps : (0:ℝ) < FLT_EPSILON := by rw [FLT_EPSILON]; norm_num
  constructor
  · have hd : (0:ℝ) < a * c - b * b := lt_of_lt_of_le heps h1
    have hdne : a * c - b * b ≠ 0 := ne_of_gt hd
    rw [getWeightsR_of_ge (not_lt.mpr h1)]
    simp only [getWeights_fin]
    have hdet2 : (c / (a * c - b * b)) * (a / (a * c - b * b)) -
        (-b / (a * c - b * b)) * (-b / (a * c - b * b)) = 1 / (a * c - b * b) := by
      rw [div_mul_div_comm, div_mul_div_comm, div_sub_div_same]
      rw [show c * a - -b * -b = a * c - b * b by ring]
      rw [div_mul_cancel_left₀ hdne, one_div]
    rw [getWeightsR]
    rw [hdet2, if_neg (not_lt.mpr h2)]
    have hdinv : (1:ℝ) / (a * c - b * b) ≠ 0 := by positivity
    have ew11 : a / (a * c - b * b) / (1 / (a * c - b * b)) = a := by
      field_simp
    have ew12 : -(-b / (a * c - b * b)) / (1 / (a * c - b * b)) = b := by
      field_simp
    have ew22 : c / (a * c - b * b) / (1 / (a * c - b * b)) = c := by
      field_simp
    rw [ew11, ew12, ew22]
  · intro u v w hle
    exact getWeightsR_of_lt (lt_of_le_of_lt hle heps)

/-- Witness for C9 (amended) at `W = (4, 0, 4)`: round-tripping through the
solver returns `(4, 0, 4)` exactly. -/
theorem getWeights_roundTrip_witness :
    getWeights (getWeightsR 4 0 4).w11 (getWeightsR 4 0 4).w12
        (getWeightsR 4 0 4).w22 =
      ⟨true, .fin (1 / (4 * 4 - 0 * 0)), .fin 4, .fin 0, .fin 4⟩ ∧
    getWeightsR 1 1 1 = ⟨false, .fin (1 * 1 - 1 * 1), .nan, .nan, .nan⟩ := by
  have h := getWeights_roundTrip 4 0 4
    (by rw [FLT_EPSILON]; norm_num) (by rw [FLT_EPSILON]; norm_num)
  exact ⟨h.1, h.2 1 1 1 (by norm_num)⟩

/-- An image (or masked image) as consumed by the algorithm: pixel values on
an integer grid of size `width × height` with local coordinates
`0 ≤ x < width`, `0 ≤ y < height`, an origin offset `(x0, y0)` relating
parent to local coordinates, and an optional variance plane.  For a plain
image (`hasVariance = false`) `getVariance` returns NaN, mirroring
`ImageAdaptor`. -/
structure Img where
  width : ℤ
  height : ℤ
  x0 : ℤ
  y0 : ℤ
  pix : ℤ → ℤ → ℝ
  varpix : ℤ → ℤ → ℝ
  hasVariance : Bool

/-- `ImageAdaptor::getVariance`: the variance plane value for a masked
image, NaN for a plain image. -/
noncomputable def Img.getVariance (img : Img) (ix iy : ℤ) : FV :=
  if img.hasVariance then .fin (img.varpix ix iy) else .nan

/-- An integer bounding box with inclusive corners, as `lsst::geom::Box2I`.
The empty box is represented by `⟨0, -1, 0, -1⟩` (minimum `(0,0)`,
maximum `(-1,-1)`), matching `lsst::geom`. -/
structure BoxI where
  xmin : ℤ
  xmax : ℤ
  ymin : ℤ
  ymax : ℤ

/-- Modelled from the spec (external collaborator `lsst::geom::Box2I
(Box2D, EXPAND)`, not part of this repository): the smallest integer box
containing all pixels overlapping the floating-point box; pixel `j` spans
`[j - 0.5, j + 0.5]`, so the minimum is `⌊min + 0.5⌋` and the maximum is
`⌈max - 0.5⌉` in each dimension. -/
noncomputable def boxIOfBoxD (axmin axmax aymin aymax : ℝ) : BoxI :=
  ⟨⌊axmin + 0.5⌋, ⌈axmax - 0.5⌉, ⌊aymin + 0.5⌋, ⌈aymax - 0.5⌉⟩

/-- Modelled from the spec (external collaborator `lsst::geom::Box2I::clip`,
not part of this repository): intersection of two boxes, with the empty
result normalized to the canonical empty box. -/
def BoxI.clip (a b : BoxI) : BoxI :=
  if max a.xmin b.xmin ≤ min a.xmax b.xmax ∧ max a.ymin b.ymin ≤ min a.ymax b.ymax then
    ⟨max a.xmin b.xmin, min a.xmax b.xmax, max a.ymin b.ymin, min a.ymax b.ymax⟩
  else ⟨0, -1, 0, -1⟩

/-- The LOCAL bounding box of an image: `[0, width-1] × [0, height-1]`. -/
def Img.bboxLocal (img : Img) : BoxI := ⟨0, img.width - 1, 0, img.height - 1⟩

/-- Embedding of `computeAdaptiveMomentsBBox` (SdssShape.cc lines 175-187):
a square box of radius `min(4·sqrt(max(σ11, σ22)), 1000)` around the centre,
clipped to the full image box. -/
noncomputable def computeAdaptiveMomentsBBox (bbox : BoxI) (cx cy : ℝ)
    (sigma11w sigma22w : ℝ) : BoxI :=
  BoxI.clip
    (boxIOfBoxD (cx - min (4 * Real.sqrt (max sigma11w sigma22w)) 1000)
      (cx + min (4 * Real.sqrt (max sigma11w sigma22w)) 1000)
      (cy - min (4 * Real.sqrt (max sigma11w sigma22w)) 1000)
      (cy + min (4 * Real.sqrt (max sigma11w sigma22w)) 1000))
    bbox

/-- The integers from `lo` to `hi` inclusive, in increasing order (the pixel
index ranges iterated by `calcmom`). -/
def intRange (lo hi : ℤ) : List ℤ :=
  (List.range (hi + 1 - lo).toNat).map (fun k => lo + (k : ℤ))

/-- The seven moment accumulators of `calcmom`:
`sum, sumx, sumy, sumxx, sumxy, sumyy, sums4`. -/
@[ext]
structure Moms where
  sum : ℝ
  sumx : ℝ
  sumy : ℝ
  sumxx : ℝ
  sumxy : ℝ
  sumyy : ℝ
  sums4 : ℝ

def Moms.zero : Moms := ⟨0, 0, 0, 0, 0, 0, 0⟩

def Moms.add (a b : Moms) : Moms :=
  ⟨a.sum + b.sum, a.sumx + b.sumx, a.sumy + b.sumy, a.sumxx + b.sumxx,
    a.sumxy + b.sumxy, a.sumyy + b.sumyy, a.sums4 + b.sums4⟩

def Moms.listSum (l : List Moms) : Moms := l.foldl Moms.add Moms.zero

/-- One pixel's contribution to the full moment sums in non-interpolated
mode (SdssShape.cc lines 352-369): nothing when the Gaussian exponent
exceeds 14; otherwise the weighted value `ymod = (v - bkgd)·exp(-expon/2)`
enters `sum`, the *absolute* pixel indices `j`, `i` weight the first
moments, and the centre-relative offsets weight the second moments. -/
noncomputable def momContribNI (xcen ycen bkgd w11 w12 w22 v : ℝ) (j i : ℤ) : Moms :=
  let x : ℝ := (j : ℝ) - xcen
  let y : ℝ := (i : ℝ) - ycen
  let expon : ℝ := x * x * w11 + 2 * (x * y) * w12 + y * y * w22
  if expon ≤ 14 then
    let ymod : ℝ := (v - bkgd) * Real.exp (-0.5 * expon)
    ⟨ymod, ymod * (j : ℝ), ymod * (i : ℝ), x * x * ymod, x * y * ymod,
      y * y * ymod, expon * expon * ymod⟩
  else Moms.zero

/-- The 4x4 sub-pixel grid offsets used in interpolated mode: each pixel is
subdivided with step 0.25 starting at offset -0.375. -/
noncomputable def subOff (k : ℕ) : ℝ := -0.375 + 0.25 * (k : ℝ)

/-- One sub-pixel sample's contribution in interpolated mode (full-moment
variant, SdssShape.cc lines 333-349).  `X`, `Y` are offsets from the
centre; the first moments use `X + xcen`, `Y + ycen` (absolute
coordinates). -/
noncomputable def momContribSub (xcen ycen bkgd w11 w12 w22 v : ℝ) (j i : ℤ)
    (k l : ℕ) : Moms :=
  let capX : ℝ := ((j : ℝ) - xcen) + subOff k
  let capY : ℝ := ((i : ℝ) - ycen) + subOff l
  let expon : ℝ := capX * capX * w11 + 2 * (capX * capY) * w12 + capY * capY * w22
  let ymod : ℝ := (v - bkgd) * Real.exp (-0.5 * expon)
  ⟨ymod, ymod * (capX + xcen), ymod * (capY + ycen), capX * capX * ymod,
    capX * capY * ymod, capY * capY * ymod, expon * expon * ymod⟩

/-- The corner test of interpolated mode (SdssShape.cc lines 323-331): the
largest Gaussian exponent among the four quarter-pixel corner offsets
`±0.375`. -/
noncomputable def cornerExpon (xcen ycen w11 w12 w22 : ℝ) (j i : ℤ) : ℝ :=
  let xl : ℝ := ((j : ℝ) - xcen) - 0.375
  let xh : ℝ := ((j : ℝ) - xcen) + 0.375
  let yl : ℝ := ((i : ℝ) - ycen) - 0.375
  let yh : ℝ := ((i : ℝ) - ycen) + 0.375
  max (max (xl * xl * w11 + yl * yl * w22 + 2 * (xl * yl) * w12)
        (xh * xh * w11 + yh * yh * w22 + 2 * (xh * yh) * w12))
    (max (xl * xl * w11 + yh * yh * w22 + 2 * (xl * yh) * w12)
      (xh * xh * w11 + yl * yl * w22 + 2 * (xh * yl) * w12))

/-- One pixel's contribution to the full moment sums in interpolated mode:
nothing when the maximal corner exponent exceeds 9, otherwise the sum of
the 16 sub-grid sample contributions. -/
noncomputable def momContribI (xcen ycen bkgd w11 w12 w22 v : ℝ) (j i : ℤ) : Moms :=
  if cornerExpon xcen ycen w11 w12 w22 j i ≤ 9 then
    Moms.listSum ((List.range 4).map (fun l =>
      Moms.listSum ((List.range 4).map (fun k =>
        momContribSub xcen ycen bkgd w11 w12 w22 v j i k l))))
  else Moms.zero

/-- One pixel's contribution to the full moment sums, dispatching on the
interpolation flag. -/
noncomputable def momContrib (xcen ycen bkgd : ℝ) (interpflag : Bool)
    (w11 w12 w22 v : ℝ) (j i : ℤ) : Moms :=
  if interpflag then momContribI xcen ycen bkgd w11 w12 w22 v j i
  else momContribNI xcen ycen bkgd w11 w12 w22 v j i

/-- The accumulation loops of `calcmom` (full-moment variant): a row-major
fold over the bounding box, adding each pixel's contribution. -/
noncomputable def calcmomAccum (img : Img) (xcen ycen bkgd : ℝ) (interpflag : Bool)
    (w11 w12 w22 : ℝ) (bbox : BoxI) : Moms :=
  (intRange bbox.ymin bbox.ymax).foldl (fun m i =>
    (intRange bbox.xmin bbox.xmax).foldl (fun m' j =>
      m'.add (momContrib xcen ycen bkgd interpflag w11 w12 w22 (img.pix j i) j i)) m)
    Moms.zero

/-- The amplitude computation at the tail of the full-moment `calcmom`
(SdssShape.cc lines 374-376): `detW` is the determinant of the matrix
returned by `getWeights(w11, w12, w22)` (i.e. of the *inverse* of the
weight matrix, with NaN entries when `getWeights` fails), and
`I0 = sum / (π·sqrt(detW))`. -/
noncomputable def calcmomI0 (w11 w12 w22 sum : ℝ) : FV :=
  FV.div (.fin sum)
    ((FV.fin Real.pi).mul
      (((getWeightsR w11 w12 w22).w11.mul (getWeightsR w11 w12 w22).w22).sub
        ((getWeightsR w11 w12 w22).w12.mul (getWeightsR w11 w12 w22).w12)).sqrtv)

/-- Errors thrown by `calcmom`: `InvalidParameterError` for out-of-range
weights, `LengthError` for a bounding box not contained in the image. -/
inductive CalcmomError where
  | invalidParameter : CalcmomError
  | lengthError : CalcmomError

/-- Result of the full-moment `calcmom`: the amplitude `I0`, the seven
moment sums, and the returned status (`0` for sign-consistent sums, `-1`
otherwise). -/
structure CalcmomOut where
  i0 : FV
  moms : Moms
  status : ℤ

/-- Embedding of the full-moment `calcmom` (SdssShape.cc lines 277-394).
Validates the weights, then the bounding box, then accumulates, computes
`I0`, and reports the sign-consistency status of `sum`, `sumxx`, `sumyy`. -/
noncomputable def calcmom (img : Img) (xcen ycen : ℝ) (bbox : BoxI) (bkgd : ℝ)
    (interpflag : Bool) (w11 w12 w22 : ℝ) (negative : Bool) :
    Except CalcmomError CalcmomOut :=
  if w11 < 0 ∨ w11 > 1000000 ∨ |w12| > 1000000 ∨ w22 < 0 ∨ w22 > 1000000 then
    .error .invalidParameter
  else if bbox.xmin < 0 ∨ bbox.xmax ≥ img.width ∨ bbox.ymin < 0 ∨ bbox.ymax ≥ img.height then
    .error .lengthError
  else
    let m := calcmomAccum img xcen ycen bkgd interpflag w11 w12 w22 bbox
    .ok ⟨calcmomI0 w11 w12 w22 m.sum, m,
      if negative then
        (if m.sum < 0 ∧ m.sumxx < 0 ∧ m.sumyy < 0 then 0 else -1)
      else
        (if m.sum > 0 ∧ m.sumxx > 0 ∧ m.sumyy > 0 then 0 else -1)⟩

/-- One pixel's contribution to the flux-only `calcmom` variant
(SdssShape.cc lines 194-275): only `sum` is accumulated, with the same
non-interpolated cutoff at 14 and interpolated corner cutoff at 9. -/
noncomputable def sumContrib (xcen ycen bkgd : ℝ) (interpflag : Bool)
    (w11 w12 w22 v : ℝ) (j i : ℤ) : ℝ :=
  if interpflag then
    (if cornerExpon xcen ycen w11 w12 w22 j i ≤ 9 then
      ((List.range 4).map (fun l =>
        (((List.range 4).map (fun k =>
          (v - bkgd) * Real.exp (-0.5 *
            ((((j : ℝ) - xcen) + subOff k) * (((j : ℝ) - xcen) + subOff k) * w11 +
              2 * ((((j : ℝ) - xcen) + subOff k) * (((i : ℝ) - ycen) + subOff l)) * w12 +
              (((i : ℝ) - ycen) + subOff l) * (((i : ℝ) - ycen) + subOff l) * w22)))).sum))).sum
    else 0)
  else
    (if ((j : ℝ) - xcen) * ((j : ℝ) - xcen) * w11 +
        2 * (((j : ℝ) - xcen) * ((i : ℝ) - ycen)) * w12 +
        ((i : ℝ) - ycen) * ((i : ℝ) - ycen) * w22 ≤ 14 then
      (v - bkgd) * Real.exp (-0.5 *
        (((j : ℝ) - xcen) * ((j : ℝ) - xcen) * w11 +
          2 * (((j : ℝ) - xcen) * ((i : ℝ) - ycen)) * w12 +
          ((i : ℝ) - ycen) * ((i : ℝ) - ycen) * w22))
    else 0)

/-- Embedding of the flux-only `calcmom` overload (SdssShape.cc lines
194-275): same weight and bounding-box validation, accumulating only the
weighted sum. -/
noncomputable def calcmomFluxOnly (img : Img) (xcen ycen : ℝ) (bbox : BoxI)
    (bkgd : ℝ) (interpflag : Bool) (w11 w12 w22 : ℝ) : Except CalcmomError ℝ :=
  if w11 < 0 ∨ w11 > 1000000 ∨ |w12| > 1000000 ∨ w22 < 0 ∨ w22 > 1000000 then
    .error .invalidParameter
  else if bbox.xmin < 0 ∨ bbox.xmax ≥ img.width ∨ bbox.ymin < 0 ∨ bbox.ymax ≥ img.height then
    .error .lengthError
  else
    .ok ((intRange bbox.ymin bbox.ymax).foldl (fun s i =>
      (intRange bbox.xmin bbox.xmax).foldl (fun s' j =>
        s' + sumContrib xcen ycen bkgd interpflag w11 w12 w22 (img.pix j i) j i) s) 0)

lemma Moms.add_zero_right (a : Moms) : a.add Moms.zero = a := by
  unfold Moms.add Moms.zero
  ext <;> simp

lemma Moms.add_zero_left (a : Moms) : Moms.zero.add a = a := by
  unfold Moms.add Moms.zero
  ext <;> simp

lemma Moms.add_assoc' (a b c : Moms) : (a.add b).add c = a.add (b.add c) := by
  unfold Moms.add
  ext <;> ring

lemma Moms.foldl_add (l : List Moms) (m0 : Moms) :
    l.foldl Moms.add m0 = m0.add (Moms.listSum l) := by
  induction l generalizing m0 with
  | nil => simp [Moms.listSum, Moms.add_zero_right]
  | cons a l ih =>
    have hl : Moms.listSum (a :: l) = a.add (Moms.listSum l) := by
      unfold Moms.listSum
      simp only [List.foldl_cons]
      rw [Moms.add_zero_left, ← Moms.listSum]
      exact ih a
    simp only [List.foldl_cons]
    rw [ih (m0.add a), hl, Moms.add_assoc']

lemma Moms.listSum_cons (a : Moms) (l : List Moms) :
    Moms.listSum (a :: l) = a.add (Moms.listSum l) := by
  unfold Moms.listSum
  simp only [List.foldl_cons]
  rw [Moms.add_zero_left, ← Moms.listSum, Moms.foldl_add]

lemma foldl_add_eq {α : Type} (g : Moms → α → Moms) (f : α → Moms)
    (hg : ∀ m p, g m p = m.add (f p)) (l : List α) (m0 : Moms) :
    l.foldl g m0 = m0.add (Moms.listSum (l.map f)) := by
  induction l generalizing m0 with
  | nil => simp [Moms.listSum, Moms.add_zero_right]
  | cons a l ih =>
    simp only [List.foldl_cons, List.map_cons]
    rw [hg, ih (m0.add (f a)), Moms.listSum_cons, Moms.add_assoc']

lemma foldl_radd_eq {α : Type} (g : ℝ → α → ℝ) (f : α → ℝ)
    (hg : ∀ s p, g s p = s + f p) (l : List α) (s0 : ℝ) :
    l.foldl g s0 = s0 + (l.map f).sum := by
  induction l generalizing s0 with
  | nil => simp
  | cons a l ih =>
    simp only [List.foldl_cons, List.map_cons, List.sum_cons]
    rw [hg, ih (s0 + f a)]
    ring

/-- The nested accumulation fold of `calcmom` equals the nested sum of
per-pixel contributions. -/
lemma calcmomAccum_eq (img : Img) (xcen ycen bkgd : ℝ) (interpflag : Bool)
    (w11 w12 w22 : ℝ) (bbox : BoxI) :
    calcmomAccum img xcen ycen bkgd interpflag w11 w12 w22 bbox =
      Moms.listSum ((intRange bbox.ymin bbox.ymax).map (fun i =>
        Moms.listSum ((intRange bbox.xmin bbox.xmax).map (fun j =>
          momContrib xcen ycen bkgd interpflag w11 w12 w22 (img.pix j i) j i)))) := by
  unfold calcmomAccum
  rw [foldl_add_eq _ (fun i => Moms.listSum ((intRange bbox.xmin bbox.xmax).map (fun j =>
        momContrib xcen ycen bkgd interpflag w11 w12 w22 (img.pix j i) j i)))
      (fun m i => foldl_add_eq _ _ (fun _ _ => rfl) _ m), Moms.add_zero_left]

lemma Moms.sum_add (a b : Moms) : (a.add b).sum = a.sum + b.sum := rfl

lemma Moms.sumx_add (a b : Moms) : (a.add b).sumx = a.sumx + b.sumx := rfl

lemma Moms.sumy_add (a b : Moms) : (a.add b).sumy = a.sumy + b.sumy := rfl

lemma Moms.sumxx_add (a b : Moms) : (a.add b).sumxx = a.sumxx + b.sumxx := rfl

lemma Moms.sumxy_add (a b : Moms) : (a.add b).sumxy = a.sumxy + b.sumxy := rfl

lemma Moms.sumyy_add (a b : Moms) : (a.add b).sumyy = a.sumyy + b.sumyy := rfl

lemma Moms.sums4_add (a b : Moms) : (a.add b).sums4 = a.sums4 + b.sums4 := rfl

/-- Componentwise reading of a `Moms` list sum, for any projection that is
additive. -/
lemma Moms.listSum_proj (proj : Moms → ℝ)
    (hzero : proj Moms.zero = 0)
    (hadd : ∀ a b, proj (a.add b) = proj a + proj b) (l : List Moms) :
    proj (Moms.listSum l) = (l.map proj).sum := by
  induction l with
  | nil => simpa [Moms.listSum]
  | cons a l ih =>
    rw [Moms.listSum_cons, hadd, ih]
    simp

/-- Evaluation of the `calcmom` amplitude when `getWeights` on the weights
succeeds: `I0 = sum / (π·sqrt(1/(w11·w22 − w12²)))`, i.e. the determinant
under the square root is that of the *inverse* weight matrix. -/
lemma calcmomI0_of_ok {w11 w12 w22 : ℝ} (s : ℝ)
    (h : ¬ w11 * w22 - w12 * w12 < FLT_EPSILON) :
    calcmomI0 w11 w12 w22 s =
      .fin (s / (Real.pi * Real.sqrt (1 / (w11 * w22 - w12 * w12)))) := by
  have hd : (0:ℝ) < w11 * w22 - w12 * w12 :=
    lt_of_lt_of_le (by rw [FLT_EPSILON]; norm_num) (not_lt.mp h)
  have hdet2 : (w22 / (w11 * w22 - w12 * w12)) * (w11 / (w11 * w22 - w12 * w12)) -
      (-w12 / (w11 * w22 - w12 * w12)) * (-w12 / (w11 * w22 - w12 * w12)) =
      1 / (w11 * w22 - w12 * w12) := by
    rw [div_mul_div_comm, div_mul_div_comm, div_sub_div_same]
    rw [show w22 * w11 - -w12 * -w12 = w11 * w22 - w12 * w12 by ring]
    rw [div_mul_cancel_left₀ (ne_of_gt hd), one_div]
  unfold calcmomI0
  rw [getWeightsR_of_ge h]
  simp only [FV.mul, FV.sub, FV.sqrtv]
  rw [hdet2, if_neg (not_lt.mpr (le_of_lt (by positivity)))]
  simp only [FV.mul, FV.div]

/-- Evaluation of the `calcmom` amplitude when `getWeights` on the weights
fails: the NaN sentinels propagate and `I0` is NaN. -/
lemma calcmomI0_of_fail {w11 w12 w22 : ℝ} (s : ℝ)
    (h : w11 * w22 - w12 * w12 < FLT_EPSILON) :
    calcmomI0 w11 w12 w22 s = .nan := by
  unfold calcmomI0
  rw [getWeightsR_of_lt h]
  simp only [FV.mul, FV.sub, FV.sqrtv, FV.div]

/-- Inversion of a successful full-moment `calcmom` run: the guards passed
and the output is the accumulated moments with their amplitude and status. -/
lemma calcmom_ok_elim {img : Img} {xcen ycen bkgd : ℝ} {bbox : BoxI}
    {interpflag : Bool} {w11 w12 w22 : ℝ} {negative : Bool} {out : CalcmomOut}
    (h : calcmom img xcen ycen bbox bkgd interpflag w11 w12 w22 negative = .ok out) :
    out.moms = calcmomAccum img xcen ycen bkgd interpflag w11 w12 w22 bbox ∧
    out.i0 = calcmomI0 w11 w12 w22
      (calcmomAccum img xcen ycen bkgd interpflag w11 w12 w22 bbox).sum := by
  unfold calcmom at h
  split at h
  · cases h
  · split at h
    · cases h
    · simp only [Except.ok.injEq] at h
      subst h
      exact ⟨rfl, rfl⟩

/-- Modelled from the spec: claim C2's per-pixel contribution in
non-interpolated mode, with *both* first moments taken relative to the
given centre (`sumx = x·w`, `sumy = y·w`) and
`weighted_value = (pixel − background)·exp(−Q/2)`. -/
noncomputable def claimedMomContribNI (xcen ycen bkgd w11 w12 w22 v : ℝ) (j i : ℤ) : Moms :=
  let x : ℝ := (j : ℝ) - xcen
  let y : ℝ := (i : ℝ) - ycen
  let expon : ℝ := x * x * w11 + 2 * (x * y) * w12 + y * y * w22
  if expon ≤ 14 then
    let wv : ℝ := (v - bkgd) * Real.exp (-(expon / 2))
    ⟨wv, x * wv, y * wv, x * x * wv, x * y * wv, y * y * wv, expon * expon * wv⟩
  else Moms.zero

/-- Modelled from the spec: the whole claimed non-interpolated accumulation
over the bounding box. -/
noncomputable def claimedMomsNI (img : Img) (xcen ycen : ℝ) (bbox : BoxI)
    (bkgd w11 w12 w22 : ℝ) : Moms :=
  Moms.listSum ((intRange bbox.ymin bbox.ymax).map (fun i =>
    Moms.listSum ((intRange bbox.xmin bbox.xmax).map (fun j =>
      claimedMomContribNI xcen ycen bkgd w11 w12 w22 (img.pix j i) j i))))

lemma exp_half_form (e : ℝ) : Real.exp (-0.5 * e) = Real.exp (-(e / 2)) := by
  congr 1
  ring

/-- The code's per-pixel contribution agrees with the claimed one on every
component except the first moments, where the code weights by the absolute
pixel indices `j`, `i` instead of the centre-relative offsets. -/
lemma momContribNI_vs_claimed (xcen ycen bkgd w11 w12 w22 v : ℝ) (j i : ℤ) :
    (momContribNI xcen ycen bkgd w11 w12 w22 v j i).sum =
      (claimedMomContribNI xcen ycen bkgd w11 w12 w22 v j i).sum ∧
    (momContribNI xcen ycen bkgd w11 w12 w22 v j i).sumx =
      (j : ℝ) * (claimedMomContribNI xcen ycen bkgd w11 w12 w22 v j i).sum ∧
    (momContribNI xcen ycen bkgd w11 w12 w22 v j i).sumy =
      (i : ℝ) * (claimedMomContribNI xcen ycen bkgd w11 w12 w22 v j i).sum ∧
    (momContribNI xcen ycen bkgd w11 w12 w22 v j i).sumxx =
      (claimedMomContribNI xcen ycen bkgd w11 w12 w22 v j i).sumxx ∧
    (momContribNI xcen ycen bkgd w11 w12 w22 v j i).sumxy =
      (claimedMomContribNI xcen ycen bkgd w11 w12 w22 v j i).sumxy ∧
    (momContribNI xcen ycen bkgd w11 w12 w22 v j i).sumyy =
      (claimedMomContribNI xcen ycen bkgd w11 w12 w22 v j i).sumyy ∧
    (momContribNI xcen ycen bkgd w11 w12 w22 v j i).sums4 =
      (claimedMomContribNI xcen ycen bkgd w11 w12 w22 v j i).sums4 := by
  unfold momContribNI claimedMomContribNI
  simp only [exp_half_form]
  split
  · refine ⟨rfl, by ring, by ring, rfl, rfl, rfl, rfl⟩
  · refine ⟨rfl, by simp [Moms.zero], by simp [Moms.zero], rfl, rfl, rfl, rfl⟩

/-- A 1×1 test image whose single pixel has value 1, no variance plane. -/
noncomputable def imgOnePix : Img :=
  ⟨1, 1, 0, 0, fun _ _ => 1, fun _ _ => 0, false⟩

lemma intRange_zero_zero : intRange 0 0 = [0] := by
  simp [intRange, List.range_succ]

lemma map_sum_congr {α : Type} (F G : α → ℝ) (l : List α) (h : ∀ a, F a = G a) :
    (l.map F).sum = (l.map G).sum := by
  rw [funext h]

lemma onePix_calcmom_eval :
    calcmom imgOnePix (1/2) 0 ⟨0, 0, 0, 0⟩ 0 false 0 0 0 false =
      .ok ⟨.nan, ⟨1, 0, 0, 1/4, 0, 0, 0⟩, -1⟩ := by
  have hc : momContrib (1/2) 0 0 false 0 0 0 (imgOnePix.pix 0 0) 0 0 =
      ⟨1, 0, 0, 1/4, 0, 0, 0⟩ := by
    show momContribNI (1/2) 0 0 0 0 0 (imgOnePix.pix 0 0) 0 0 = _
    unfold momContribNI imgOnePix
    rw [if_pos (by norm_num)]
    have he : (-0.5 * (((0:ℤ) : ℝ) - 1/2) * (((0:ℤ) : ℝ) - 1/2) * 0 : ℝ) = 0 := by norm_num
    ext <;> norm_num [Real.exp_zero]
  have haccum : calcmomAccum imgOnePix (1/2) 0 0 false 0 0 0 ⟨0, 0, 0, 0⟩ =
      ⟨1, 0, 0, 1/4, 0, 0, 0⟩ := by
    unfold calcmomAccum
    rw [intRange_zero_zero]
    simp only [List.foldl_cons, List.foldl_nil]
    rw [hc]
    unfold Moms.add Moms.zero
    ext <;> norm_num
  have hi0 : calcmomI0 0 0 0 (1:ℝ) = .nan := by
    apply calcmomI0_of_fail
    rw [FLT_EPSILON]
    norm_num
  unfold calcmom
  rw [if_neg (by norm_num), if_neg (by simp [imgOnePix])]
  simp only [haccum, hi0]
  rw [if_neg (show ¬((1:ℝ) > 0 ∧ (1/4:ℝ) > 0 ∧ (0:ℝ) > 0) by norm_num)]
  simp

/-- **C2 counterexample.** On a 1×1 image with pixel value 1, centre
`(0.5, 0)`, zero background and zero weights, the code's `sumx` is `0`
(the absolute pixel index `j = 0` times the weighted value), whereas the
claimed centre-relative first moment `x·w = (0 − 0.5)·1` is `−1/2`. -/
theorem calcmom_relativeFirstMoments_counterexample :
    calcmom imgOnePix (1/2) 0 ⟨0, 0, 0, 0⟩ 0 false 0 0 0 false =
      .ok ⟨.nan, ⟨1, 0, 0, 1/4, 0, 0, 0⟩, -1⟩ ∧
    (claimedMomsNI imgOnePix (1/2) 0 ⟨0, 0, 0, 0⟩ 0 0 0 0).sumx = -(1/2) ∧
    (⟨1, 0, 0, 1/4, 0, 0, 0⟩ : Moms).sumx ≠
      (claimedMomsNI imgOnePix (1/2) 0 ⟨0, 0, 0, 0⟩ 0 0 0 0).sumx := by
  have hclaimed : (claimedMomsNI imgOnePix (1/2) 0 ⟨0, 0, 0, 0⟩ 0 0 0 0).sumx = -(1/2) := by
    have hc : claimedMomContribNI (1/2) 0 0 0 0 0 (imgOnePix.pix 0 0) 0 0 =
        ⟨1, -(1/2), 0, 1/4, 0, 0, 0⟩ := by
      unfold claimedMomContribNI imgOnePix
      rw [if_pos (by norm_num)]
      ext <;> norm_num [Real.exp_zero]
    unfold claimedMomsNI
    rw [intRange_zero_zero]
    simp only [List.map_cons, List.map_nil, hc]
    unfold Moms.listSum
    simp only [List.foldl_cons, List.foldl_nil]
    unfold Moms.add Moms.zero
    norm_num
  refine ⟨onePix_calcmom_eval, hclaimed, ?_⟩
  rw [hclaimed]
  norm_num

/-- Nested componentwise reading of the double list sum of moments. -/
lemma nestedSum_proj (p : Moms → ℝ) (hzero : p Moms.zero = 0)
    (hadd : ∀ a b, p (a.add b) = p a + p b) (rows cols : List ℤ)
    (f : ℤ → ℤ → Moms) :
    p (Moms.listSum (rows.map (fun i => Moms.listSum (cols.map (fun j => f j i))))) =
      (rows.map (fun i => (cols.map (fun j => p (f j i))).sum)).sum := by
  rw [Moms.listSum_proj p hzero hadd, List.map_map]
  apply map_sum_congr
  intro i
  simp only [Function.comp]
  rw [Moms.listSum_proj p hzero hadd, List.map_map]
  rfl

/-- **C2 (amended).** In non-interpolated mode every successful `calcmom`
run accumulates, over the pixels of the bounding box, exactly the claimed
per-pixel quantities — cutoff `Q ≤ 14`, weighted value
`(pixel − background)·exp(−Q/2)`, centre-relative second moments and
`sums4 = ΣQ²·w` — except that the first moments are weighted by the
*absolute* pixel indices `j`, `i`, not by the centre-relative offsets. -/
theorem calcmom_nonInterp_accumulation {img : Img} {xcen ycen bkgd : ℝ}
    {bbox : BoxI} {w11 w12 w22 : ℝ} {negative : Bool} {out : CalcmomOut}
    (h : calcmom img xcen ycen bbox bkgd false w11 w12 w22 negative = .ok out) :
    out.moms.sum = (claimedMomsNI img xcen ycen bbox bkgd w11 w12 w22).sum ∧
    out.moms.sumx = ((intRange bbox.ymin bbox.ymax).map (fun i =>
      ((intRange bbox.xmin bbox.xmax).map (fun (j : ℤ) =>
        (j : ℝ) * (claimedMomContribNI xcen ycen bkgd w11 w12 w22 (img.pix j i) j i).sum)).sum)).sum ∧
    out.moms.sumy = ((intRange bbox.ymin bbox.ymax).map (fun (i : ℤ) =>
      ((intRange bbox.xmin bbox.xmax).map (fun (j : ℤ) =>
        (i : ℝ) * (claimedMomContribNI xcen ycen bkgd w11 w12 w22 (img.pix j i) j i).sum)).sum)).sum ∧
    out.moms.sumxx = (claimedMomsNI img xcen ycen bbox bkgd w11 w12 w22).sumxx ∧
    out.moms.sumxy = (claimedMomsNI img xcen ycen bbox bkgd w11 w12 w22).sumxy ∧
    out.moms.sumyy = (claimedMomsNI img xcen ycen bbox bkgd w11 w12 w22).sumyy ∧
    out.moms.sums4 = (claimedMomsNI img xcen ycen bbox bkgd w11 w12 w22).sums4 := by
  obtain ⟨hm, -⟩ := calcmom_ok_elim h
  rw [hm, calcmomAccum_eq]
  unfold claimedMomsNI
  have hvs := fun (j i : ℤ) =>
    momContribNI_vs_claimed xcen ycen bkgd w11 w12 w22 (img.pix j i) j i
  refine ⟨?_, ?_, ?_, ?_, ?_, ?_, ?_⟩
  · rw [nestedSum_proj Moms.sum rfl Moms.sum_add, nestedSum_proj Moms.sum rfl Moms.sum_add]
    refine map_sum_congr _ _ _ (fun i => map_sum_congr _ _ _ (fun j => (hvs j i).1))
  · rw [nestedSum_proj Moms.sumx rfl Moms.sumx_add]
    refine map_sum_congr _ _ _ (fun i => map_sum_congr _ _ _ (fun j => (hvs j i).2.1))
  · rw [nestedSum_proj Moms.sumy rfl Moms.sumy_add]
    refine map_sum_congr _ _ _ (fun i => map_sum_congr _ _ _ (fun j => (hvs j i).2.2.1))
  · rw [nestedSum_proj Moms.sumxx rfl Moms.sumxx_add,
      nestedSum_proj Moms.sumxx rfl Moms.sumxx_add]
    refine map_sum_congr _ _ _ (fun i => map_sum_congr _ _ _ (fun j => (hvs j i).2.2.2.1))
  · rw [nestedSum_proj Moms.sumxy rfl Moms.sumxy_add,
      nestedSum_proj Moms.sumxy rfl Moms.sumxy_add]
    refine map_sum_congr _ _ _ (fun i => map_sum_congr _ _ _ (fun j => (hvs j i).2.2.2.2.1))
  · rw [nestedSum_proj Moms.sumyy rfl Moms.sumyy_add,
      nestedSum_proj Moms.sumyy rfl Moms.sumyy_add]
    refine map_sum_congr _ _ _ (fun i => map_sum_congr _ _ _ (fun j => (hvs j i).2.2.2.2.2.1))
  · rw [nestedSum_proj Moms.sums4 rfl Moms.sums4_add,
      nestedSum_proj Moms.sums4 rfl Moms.sums4_add]
    refine map_sum_congr _ _ _ (fun i => map_sum_congr _ _ _ (fun j => (hvs j i).2.2.2.2.2.2))

/-- Witness for C2 (amended) at the 1×1 test image. -/
theorem calcmom_nonInterp_accumulation_witness :
    calcmom imgOnePix (1/2) 0 ⟨0, 0, 0, 0⟩ 0 false 0 0 0 false =
      .ok ⟨.nan, ⟨1, 0, 0, 1/4, 0, 0, 0⟩, -1⟩ ∧
    (⟨.nan, ⟨1, 0, 0, 1/4, 0, 0, 0⟩, -1⟩ : CalcmomOut).moms.sum =
      (claimedMomsNI imgOnePix (1/2) 0 ⟨0, 0, 0, 0⟩ 0 0 0 0).sum :=
  ⟨onePix_calcmom_eval, (calcmom_nonInterp_accumulation onePix_calcmom_eval).1⟩

lemma onePixW2_calcmom_eval :
    calcmom imgOnePix 0 0 ⟨0, 0, 0, 0⟩ 0 false 2 0 2 false =
      .ok ⟨.fin (1 / (Real.pi * Real.sqrt (1 / (2 * 2 - 0 * 0)))),
        ⟨1, 0, 0, 0, 0, 0, 0⟩, -1⟩ := by
  have hc : momContrib 0 0 0 false 2 0 2 (imgOnePix.pix 0 0) 0 0 =
      ⟨1, 0, 0, 0, 0, 0, 0⟩ := by
    show momContribNI 0 0 0 2 0 2 (imgOnePix.pix 0 0) 0 0 = _
    unfold momContribNI imgOnePix
    rw [if_pos (by norm_num)]
    ext <;> norm_num [Real.exp_zero]
  have haccum : calcmomAccum imgOnePix 0 0 0 false 2 0 2 ⟨0, 0, 0, 0⟩ =
      ⟨1, 0, 0, 0, 0, 0, 0⟩ := by
    unfold calcmomAccum
    rw [intRange_zero_zero]
    simp only [List.foldl_cons, List.foldl_nil]
    rw [hc]
    unfold Moms.add Moms.zero
    ext <;> norm_num
  have hi0 : calcmomI0 2 0 2 (1:ℝ) =
      .fin (1 / (Real.pi * Real.sqrt (1 / (2 * 2 - 0 * 0)))) :=
    calcmomI0_of_ok 1 (by rw [FLT_EPSILON]; norm_num)
  unfold calcmom
  rw [if_neg (by norm_num), if_neg (by simp [imgOnePix])]
  simp only [haccum, hi0]
  rw [if_neg (show ¬((1:ℝ) > 0 ∧ (0:ℝ) > 0 ∧ (0:ℝ) > 0) by norm_num)]
  simp

/-- **C3 counterexample.** On a 1×1 image with pixel value 1, centre
`(0, 0)` and weights `(w11, w12, w22) = (2, 0, 2)`, the code returns
`I0 = 1/(π·sqrt(1/4)) = 2/π` — the determinant under the square root is
`det(W⁻¹) = 1/4` — whereas the claim's `sum/(π·sqrt(det W))` with
`det W = w11·w22 − w12² = 4` would give `1/(2π)`. -/
theorem calcmom_i0_counterexample :
    calcmom imgOnePix 0 0 ⟨0, 0, 0, 0⟩ 0 false 2 0 2 false =
      .ok ⟨.fin (1 / (Real.pi * Real.sqrt (1 / (2 * 2 - 0 * 0)))),
        ⟨1, 0, 0, 0, 0, 0, 0⟩, -1⟩ ∧
    FV.fin ((1:ℝ) / (Real.pi * Real.sqrt (1 / (2 * 2 - 0 * 0)))) ≠
      FV.fin ((1:ℝ) / (Real.pi * Real.sqrt (2 * 2 - 0 * 0))) := by
  refine ⟨onePixW2_calcmom_eval, ?_⟩
  have h1 : Real.sqrt (1 / (2 * 2 - 0 * 0)) = 1 / 2 := by
    rw [show (1 / (2 * 2 - 0 * 0) : ℝ) = (1/2)^2 by norm_num, Real.sqrt_sq (by norm_num)]
  have h2 : Real.sqrt (2 * 2 - 0 * 0) = 2 := by
    rw [show (2 * 2 - 0 * 0 : ℝ) = 2^2 by norm_num, Real.sqrt_sq (by norm_num)]
  rw [h1, h2]
  simp only [ne_eq, FV.fin.injEq]
  intro heq
  have hpi := Real.pi_ne_zero
  field_simp at heq
  nlinarith [Real.pi_pos]

/-- **C3 (amended).** For every successful full-moment accumulation whose
weights `(w11, w12, w22)` are invertible by `getWeights`, the returned
amplitude is `I0 = sum / (π·sqrt(detInv))` where
`detInv = 1/(w11·w22 − w12²)` is the determinant of the matrix *returned
by* `getWeights(w11, w12, w22)` — i.e. of the inverse of the weight
matrix, not of the weight matrix itself. -/
theorem calcmom_i0_normalization {img : Img} {xcen ycen bkgd : ℝ} {bbox : BoxI}
    {interpflag : Bool} {w11 w12 w22 : ℝ} {negative : Bool} {out : CalcmomOut}
    (h : calcmom img xcen ycen bbox bkgd interpflag w11 w12 w22 negative = .ok out)
    (hw : ¬ w11 * w22 - w12 * w12 < FLT_EPSILON) :
    out.i0 = .fin (out.moms.sum / (Real.pi * Real.sqrt (1 / (w11 * w22 - w12 * w12)))) ∧
    1 / (w11 * w22 - w12 * w12) =
      (getWeightsR w11 w12 w22).w11.val * (getWeightsR w11 w12 w22).w22.val -
        (getWeightsR w11 w12 w22).w12.val * (getWeightsR w11 w12 w22).w12.val := by
  obtain ⟨hm, hi⟩ := calcmom_ok_elim h
  have hd : (0:ℝ) < w11 * w22 - w12 * w12 :=
    lt_of_lt_of_le (by rw [FLT_EPSILON]; norm_num) (not_lt.mp hw)
  constructor
  · rw [hi, calcmomI0_of_ok _ hw, hm]
  · rw [getWeightsR_of_ge hw]
    simp only [FV.val]
    rw [div_mul_div_comm, div_mul_div_comm, div_sub_div_same]
    rw [show w22 * w11 - -w12 * -w12 = w11 * w22 - w12 * w12 by ring]
    rw [div_mul_cancel_left₀ (ne_of_gt hd), one_div]

/-- Witness for C3 (amended) at the 1×1 test image with weights (2, 0, 2). -/
theorem calcmom_i0_normalization_witness :
    calcmom imgOnePix 0 0 ⟨0, 0, 0, 0⟩ 0 false 2 0 2 false =
      .ok ⟨.fin (1 / (Real.pi * Real.sqrt (1 / (2 * 2 - 0 * 0)))),
        ⟨1, 0, 0, 0, 0, 0, 0⟩, -1⟩ ∧
    (⟨.fin (1 / (Real.pi * Real.sqrt (1 / (2 * 2 - 0 * 0)))),
        ⟨1, 0, 0, 0, 0, 0, 0⟩, -1⟩ : CalcmomOut).i0 =
      .fin ((⟨.fin (1 / (Real.pi * Real.sqrt (1 / (2 * 2 - 0 * 0)))),
        ⟨1, 0, 0, 0, 0, 0, 0⟩, -1⟩ : CalcmomOut).moms.sum /
          (Real.pi * Real.sqrt (1 / ((2:ℝ) * 2 - 0 * 0)))) :=
  ⟨onePixW2_calcmom_eval,
    (calcmom_i0_normalization onePixW2_calcmom_eval
      (by rw [FLT_EPSILON]; norm_num)).1⟩

/-- **C6 counterexample.** With an out-of-range weight (`w11 = −1`) *and* a
bounding box extending past the 1×1 image, `calcmom` fails with the
invalid-parameter error, not the bounds error the claim requires for any
out-of-bounds box. -/
theorem calcmom_validation_counterexample :
    calcmom imgOnePix 0 0 ⟨0, 5, 0, 5⟩ 0 false (-1) 0 0 false =
      .error .invalidParameter ∧
    ((⟨0, 5, 0, 5⟩ : BoxI).xmax ≥ imgOnePix.width) ∧
    (Except.error CalcmomError.invalidParameter ≠
      (Except.error CalcmomError.lengthError : Except CalcmomError CalcmomOut)) := by
  refine ⟨?_, by norm_num [imgOnePix], ?_⟩
  · unfold calcmom
    rw [if_pos (by norm_num)]
  · intro h
    rw [Except.error.injEq] at h
    exact CalcmomError.noConfusion h

/-- **C6 (amended).** `calcmom` (both variants) validates its weights
first: any out-of-range weight gives the invalid-parameter error; when the
weights are in range, a bounding box not fully inside the image gives the
bounds (length) error.  In both cases the function returns an error, so no
moment sums are produced. -/
theorem calcmom_validation (img : Img) (xcen ycen : ℝ) (bbox : BoxI) (bkgd : ℝ)
    (interpflag : Bool) (w11 w12 w22 : ℝ) (negative : Bool) :
    ((w11 < 0 ∨ w11 > 1000000 ∨ |w12| > 1000000 ∨ w22 < 0 ∨ w22 > 1000000) →
      calcmom img xcen ycen bbox bkgd interpflag w11 w12 w22 negative =
        .error .invalidParameter ∧
      calcmomFluxOnly img xcen ycen bbox bkgd interpflag w11 w12 w22 =
        .error .invalidParameter) ∧
    (¬ (w11 < 0 ∨ w11 > 1000000 ∨ |w12| > 1000000 ∨ w22 < 0 ∨ w22 > 1000000) →
      (bbox.xmin < 0 ∨ bbox.xmax ≥ img.width ∨ bbox.ymin < 0 ∨ bbox.ymax ≥ img.height) →
      calcmom img xcen ycen bbox bkgd interpflag w11 w12 w22 negative =
        .error .lengthError ∧
      calcmomFluxOnly img xcen ycen bbox bkgd interpflag w11 w12 w22 =
        .error .lengthError) := by
  constructor
  · intro hw
    constructor
    · unfold calcmom
      rw [if_pos hw]
    · unfold calcmomFluxOnly
      rw [if_pos hw]
  · intro hw hb
    constructor
    · unfold calcmom
      rw [if_neg hw, if_pos hb]
    · unfold calcmomFluxOnly
      rw [if_neg hw, if_pos hb]

/-- Witness for C6 (amended): a negative `w11` gives the invalid-parameter
error, and valid weights with a too-large box give the bounds error. -/
theorem calcmom_validation_witness :
    (calcmom imgOnePix 0 0 ⟨0, 0, 0, 0⟩ 0 false (-1) 0 0 false =
        .error .invalidParameter ∧
      calcmomFluxOnly imgOnePix 0 0 ⟨0, 0, 0, 0⟩ 0 false (-1) 0 0 =
        .error .invalidParameter) ∧
    (calcmom imgOnePix 0 0 ⟨0, 5, 0, 5⟩ 0 false 0 0 0 false =
        .error .lengthError ∧
      calcmomFluxOnly imgOnePix 0 0 ⟨0, 5, 0, 5⟩ 0 false 0 0 0 =
        .error .lengthError) :=
  ⟨(calcmom_validation imgOnePix 0 0 ⟨0, 0, 0, 0⟩ 0 false (-1) 0 0 false).1
      (Or.inl (by norm_num)),
    (calcmom_validation imgOnePix 0 0 ⟨0, 5, 0, 5⟩ 0 false 0 0 0 false).2
      (by norm_num) (Or.inr (Or.inl (by norm_num [imgOnePix])))⟩

/-- `static_cast<int>` on a double: truncation toward zero. -/
noncomputable def truncZ (x : ℝ) : ℤ := if 0 ≤ x then ⌊x⌋ else ⌈x⌉

/-- `lsst::geom::Box2I::contains`: both coordinates within the inclusive
corners. -/
def BoxI.containsPt (b : BoxI) (px py : ℤ) : Prop :=
  b.xmin ≤ px ∧ px ≤ b.xmax ∧ b.ymin ≤ py ∧ py ≤ b.ymax

instance (b : BoxI) (px py : ℤ) : Decidable (b.containsPt px py) := by
  unfold BoxI.containsPt
  infer_instance

/-- Flux result record.  The error field's initial NaN is modelled from the
spec (failure paths leave fields at not-a-number sentinels). -/
structure FluxResult where
  instFlux : FV
  instFluxErr : FV

/-- Errors thrown by `computeFixedMomentsFlux`: the singular-shape
`InvalidParameterError`, a propagated `calcmom` error, or the
`RuntimeError` for a centre outside the image. -/
inductive FixedFluxError where
  | inputShapeSingular : FixedFluxError
  | calcmomFailed (e : CalcmomError) : FixedFluxError
  | centerNotInImage : FixedFluxError

/-- Embedding of `SdssShapeAlgorithm::computeFixedMomentsFlux`
(SdssShape.cc lines 833-879): weight the pixels by the *given* elliptical
Gaussian; `instFlux = 2 × weighted sum`; the centre-in-image check and the
error estimate `2·sqrt(var·(π·sqrt(det shape)))` are performed only when
the image carries variance data. -/
noncomputable def computeFixedMomentsFlux (img : Img) (ixx ixy iyy cx cy : ℝ) :
    Except FixedFluxError FluxResult :=
  if (getWeightsR ixx ixy iyy).ok = false then .error .inputShapeSingular
  else
    match calcmomFluxOnly img (cx - img.x0) (cy - img.y0)
        (computeAdaptiveMomentsBBox img.bboxLocal (cx - img.x0) (cy - img.y0) ixx iyy)
        0 (shouldInterp ixx iyy (ixx * iyy - ixy * ixy))
        (getWeightsR ixx ixy iyy).w11.val (getWeightsR ixx ixy iyy).w12.val
        (getWeightsR ixx ixy iyy).w22.val with
    | .error e => .error (.calcmomFailed e)
    | .ok sum0 =>
      if img.hasVariance then
        if img.bboxLocal.containsPt (truncZ (cx - img.x0)) (truncZ (cy - img.y0)) then
          .ok ⟨.fin (sum0 * 2),
            .fin (2 * Real.sqrt (img.varpix (truncZ (cx - img.x0)) (truncZ (cy - img.y0)) *
              (Real.pi * Real.sqrt (ixx * iyy - ixy * ixy))))⟩
        else .error .centerNotInImage
      else .ok ⟨.fin (sum0 * 2), .nan⟩

/-- An 11×11 all-zero image without a variance plane. -/
noncomputable def imgZero11 : Img :=
  ⟨11, 11, 0, 0, fun _ _ => 0, fun _ _ => 1, false⟩

/-- The same 11×11 all-zero image with a variance plane. -/
noncomputable def imgZero11Var : Img :=
  ⟨11, 11, 0, 0, fun _ _ => 0, fun _ _ => 1, true⟩

lemma list_map_zero_sum (l : List ℤ) : (l.map (fun _ => (0:ℝ))).sum = 0 := by
  induction l with
  | nil => simp
  | cons a l ih => simp [ih]

lemma sumContrib_zero_pixel (xcen ycen : ℝ) (interpflag : Bool)
    (w11 w12 w22 : ℝ) (j i : ℤ) :
    sumContrib xcen ycen 0 interpflag w11 w12 w22 0 j i = 0 := by
  unfold sumContrib
  cases interpflag with
  | false =>
    simp only [Bool.false_eq_true, if_false]
    split <;> norm_num
  | true =>
    simp only [if_true]
    split
    · rw [list_map_zero_sum ((List.range 4).map (fun k => (k:ℤ))) |>.symm]
      simp [list_map_zero_sum]
    · rfl

/-- The flux-only accumulator returns zero on an all-zero image with zero
background (for any in-bounds box and valid weights). -/
lemma calcmomFluxOnly_zero_img (img : Img) (hpix : ∀ j i, img.pix j i = 0)
    (xcen ycen : ℝ) (bbox : BoxI) (interpflag : Bool) (w11 w12 w22 : ℝ)
    (hw : ¬ (w11 < 0 ∨ w11 > 1000000 ∨ |w12| > 1000000 ∨ w22 < 0 ∨ w22 > 1000000))
    (hb : ¬ (bbox.xmin < 0 ∨ bbox.xmax ≥ img.width ∨ bbox.ymin < 0 ∨ bbox.ymax ≥ img.height)) :
    calcmomFluxOnly img xcen ycen bbox 0 interpflag w11 w12 w22 = .ok 0 := by
  unfold calcmomFluxOnly
  rw [if_neg hw, if_neg hb]
  congr 1
  have hrow : ∀ (s : ℝ) (i : ℤ), (intRange bbox.xmin bbox.xmax).foldl (fun s' j =>
      s' + sumContrib xcen ycen 0 interpflag w11 w12 w22 (img.pix j i) j i) s = s := by
    intro s i
    rw [foldl_radd_eq _ (fun j => sumContrib xcen ycen 0 interpflag w11 w12 w22 (img.pix j i) j i)
      (fun _ _ => rfl)]
    rw [map_sum_congr _ (fun _ => (0:ℝ)) _ (fun j => by
      rw [hpix j i]; exact sumContrib_zero_pixel xcen ycen interpflag w11 w12 w22 j i)]
    rw [list_map_zero_sum]
    ring
  rw [foldl_radd_eq _ (fun _ => (0:ℝ)) (fun s i => by rw [hrow s i]; ring)]
  rw [list_map_zero_sum]
  ring

lemma gw101 : getWeightsR 1 0 1 =
    ⟨true, .fin (1 * 1 - 0 * 0), .fin (1 / (1 * 1 - 0 * 0)),
      .fin (-0 / (1 * 1 - 0 * 0)), .fin (1 / (1 * 1 - 0 * 0))⟩ :=
  getWeightsR_of_ge (by rw [FLT_EPSILON]; norm_num)

lemma bboxFF_eval :
    computeAdaptiveMomentsBBox imgZero11.bboxLocal ((-1) - (imgZero11.x0 : ℝ))
      (5 - (imgZero11.y0 : ℝ)) 1 1 = ⟨0, 3, 1, 9⟩ := by
  unfold computeAdaptiveMomentsBBox imgZero11 Img.bboxLocal
  have hr : min (4 * Real.sqrt (max (1:ℝ) 1)) 1000 = 4 := by
    rw [max_self, Real.sqrt_one]
    norm_num
  rw [hr]
  have hx : ((-1) - ((0:ℤ) : ℝ)) = -1 := by norm_num
  have hy : ((5:ℝ) - ((0:ℤ) : ℝ)) = 5 := by norm_num
  rw [hx, hy]
  unfold boxIOfBoxD
  have e1 : ⌊(-1 : ℝ) - 4 + 0.5⌋ = -5 := by norm_num [Int.floor_eq_iff]
  have e2 : ⌈(-1 : ℝ) + 4 - 0.5⌉ = 3 := by norm_num [Int.ceil_eq_iff]
  have e3 : ⌊(5 : ℝ) - 4 + 0.5⌋ = 1 := by norm_num [Int.floor_eq_iff]
  have e4 : ⌈(5 : ℝ) + 4 - 0.5⌉ = 9 := by norm_num [Int.ceil_eq_iff]
  rw [e1, e2, e3, e4]
  unfold BoxI.clip
  norm_num

lemma ffluxNoVar_eval :
    computeFixedMomentsFlux imgZero11 1 0 1 (-1) 5 = .ok ⟨.fin 0, .nan⟩ := by
  have hcm : calcmomFluxOnly imgZero11 ((-1) - (imgZero11.x0 : ℝ))
      (5 - (imgZero11.y0 : ℝ)) ⟨0, 3, 1, 9⟩ 0
      (shouldInterp 1 1 (1 * 1 - 0 * 0))
      (getWeightsR 1 0 1).w11.val (getWeightsR 1 0 1).w12.val
      (getWeightsR 1 0 1).w22.val = .ok 0 := by
    apply calcmomFluxOnly_zero_img
    · intro j i
      rfl
    · rw [gw101]
      simp only [FV.val]
      norm_num
    · show ¬((0:ℤ) < 0 ∨ (3:ℤ) ≥ 11 ∨ (1:ℤ) < 0 ∨ (9:ℤ) ≥ 11)
      norm_num
  unfold computeFixedMomentsFlux
  rw [bboxFF_eval, hcm]
  rw [gw101]
  norm_num
  intro hv
  simp [imgZero11] at hv

lemma ffluxVar_eval :
    computeFixedMomentsFlux imgZero11Var 1 0 1 (-1) 5 = .error .centerNotInImage := by
  have hbb : computeAdaptiveMomentsBBox imgZero11Var.bboxLocal
      ((-1) - (imgZero11Var.x0 : ℝ)) (5 - (imgZero11Var.y0 : ℝ)) 1 1 = ⟨0, 3, 1, 9⟩ :=
    bboxFF_eval
  have hcm : calcmomFluxOnly imgZero11Var ((-1) - (imgZero11Var.x0 : ℝ))
      (5 - (imgZero11Var.y0 : ℝ)) ⟨0, 3, 1, 9⟩ 0
      (shouldInterp 1 1 (1 * 1 - 0 * 0))
      (getWeightsR 1 0 1).w11.val (getWeightsR 1 0 1).w12.val
      (getWeightsR 1 0 1).w22.val = .ok 0 := by
    apply calcmomFluxOnly_zero_img
    · intro j i
      rfl
    · rw [gw101]
      simp only [FV.val]
      norm_num
    · show ¬((0:ℤ) < 0 ∨ (3:ℤ) ≥ 11 ∨ (1:ℤ) < 0 ∨ (9:ℤ) ≥ 11)
      norm_num
  have htr : truncZ ((-1) - (imgZero11Var.x0 : ℝ)) = -1 := by
    unfold truncZ imgZero11Var
    rw [if_neg (by norm_num)]
    norm_num [Int.ceil_eq_iff]
  unfold computeFixedMomentsFlux
  rw [hbb, hcm, gw101]
  norm_num
  rw [show imgZero11Var.hasVariance = true from rfl]
  simp only [if_true]
  rw [if_neg]
  intro hcon
  rw [htr, show imgZero11Var.bboxLocal = ⟨0, 10, 0, 10⟩ from rfl] at hcon
  norm_num [BoxI.containsPt] at hcon

lemma ffCalcmomZero : calcmomFluxOnly imgZero11 ((-1) - (imgZero11.x0 : ℝ))
    (5 - (imgZero11.y0 : ℝ))
    (computeAdaptiveMomentsBBox imgZero11.bboxLocal ((-1) - (imgZero11.x0 : ℝ))
      (5 - (imgZero11.y0 : ℝ)) 1 1) 0
    (shouldInterp 1 1 (1 * 1 - 0 * 0))
    (getWeightsR 1 0 1).w11.val (getWeightsR 1 0 1).w12.val
    (getWeightsR 1 0 1).w22.val = .ok 0 := by
  rw [bboxFF_eval]
  apply calcmomFluxOnly_zero_img
  · intro j i
    rfl
  · rw [gw101]
    simp only [FV.val]
    norm_num
  · show ¬((0:ℤ) < 0 ∨ (3:ℤ) ≥ 11 ∨ (1:ℤ) < 0 ∨ (9:ℤ) ≥ 11)
    norm_num

/-- **C7 counterexample.** For an image *without* variance data, a centre
outside the image bounds does not produce a bounds error: on the 11×11
zero image with centre `(-1, 5)` (outside the image) the call succeeds
and returns flux 0, contradicting the claim's "regardless of whether the
image carries variance data". -/
theorem computeFixedMomentsFlux_bounds_counterexample :
    ¬ imgZero11.bboxLocal.containsPt (truncZ ((-1) - (imgZero11.x0 : ℝ)))
        (truncZ (5 - (imgZero11.y0 : ℝ))) ∧
    computeFixedMomentsFlux imgZero11 1 0 1 (-1) 5 = .ok ⟨.fin 0, .nan⟩ := by
  constructor
  · have htr : truncZ ((-1) - (imgZero11.x0 : ℝ)) = -1 := by
      unfold truncZ imgZero11
      rw [if_neg (by norm_num)]
      norm_num [Int.ceil_eq_iff]
    rw [htr, show imgZero11.bboxLocal = ⟨0, 10, 0, 10⟩ from rfl]
    norm_num [BoxI.containsPt]
  · exact ffluxNoVar_eval

/-- **C7 (amended).** For every call to `computeFixedMomentsFlux` with an
invertible shape whose flux-only accumulation succeeds with `sum0`: when
the image carries variance data, a centre outside the image bounds fails
with the bounds (runtime) error, and a centre inside returns
`flux = 2·sum0` with `fluxErr = 2·sqrt(var·π·sqrt(det(shape)))`; when the
image carries no variance data, no centre-bounds check is performed and
the call returns `flux = 2·sum0` with a NaN error sentinel. -/
theorem computeFixedMomentsFlux_spec (img : Img) (ixx ixy iyy cx cy : ℝ) (sum0 : ℝ)
    (hgw : (getWeightsR ixx ixy iyy).ok = true)
    (hcm : calcmomFluxOnly img (cx - img.x0) (cy - img.y0)
      (computeAdaptiveMomentsBBox img.bboxLocal (cx - img.x0) (cy - img.y0) ixx iyy) 0
      (shouldInterp ixx iyy (ixx * iyy - ixy * ixy))
      (getWeightsR ixx ixy iyy).w11.val (getWeightsR ixx ixy iyy).w12.val
      (getWeightsR ixx ixy iyy).w22.val = .ok sum0) :
    (img.hasVariance = true →
      (¬ img.bboxLocal.containsPt (truncZ (cx - img.x0)) (truncZ (cy - img.y0)) →
        computeFixedMomentsFlux img ixx ixy iyy cx cy = .error .centerNotInImage) ∧
      (img.bboxLocal.containsPt (truncZ (cx - img.x0)) (truncZ (cy - img.y0)) →
        computeFixedMomentsFlux img ixx ixy iyy cx cy =
          .ok ⟨.fin (sum0 * 2),
            .fin (2 * Real.sqrt (img.varpix (truncZ (cx - img.x0)) (truncZ (cy - img.y0)) *
              (Real.pi * Real.sqrt (ixx * iyy - ixy * ixy))))⟩)) ∧
    (img.hasVariance = false →
      computeFixedMomentsFlux img ixx ixy iyy cx cy = .ok ⟨.fin (sum0 * 2), .nan⟩) := by
  have hmain : computeFixedMomentsFlux img ixx ixy iyy cx cy =
      (if img.hasVariance then
        if img.bboxLocal.containsPt (truncZ (cx - img.x0)) (truncZ (cy - img.y0)) then
          .ok ⟨.fin (sum0 * 2),
            .fin (2 * Real.sqrt (img.varpix (truncZ (cx - img.x0)) (truncZ (cy - img.y0)) *
              (Real.pi * Real.sqrt (ixx * iyy - ixy * ixy))))⟩
        else .error .centerNotInImage
      else .ok ⟨.fin (sum0 * 2), .nan⟩) := by
    unfold computeFixedMomentsFlux
    rw [hgw, hcm]
    simp only [Bool.true_eq_false, if_false]
  constructor
  · intro hv
    rw [hmain, hv]
    simp only [if_true]
    constructor
    · intro hnc
      rw [if_neg hnc]
    · intro hc
      rw [if_pos hc]
  · intro hv
    rw [hmain, hv]
    simp only [Bool.false_eq_true, if_false]

/-- Witness for C7 (amended): the no-variance branch at the 11×11 zero
image with an out-of-bounds centre returns flux `0·2` with no error. -/
theorem computeFixedMomentsFlux_spec_witness :
    (getWeightsR 1 0 1).ok = true ∧
    computeFixedMomentsFlux imgZero11 1 0 1 (-1) 5 = .ok ⟨.fin (0 * 2), .nan⟩ :=
  ⟨by rw [gw101],
    (computeFixedMomentsFlux_spec imgZero11 1 0 1 (-1) 5 0
      (by rw [gw101]) ffCalcmomZero).2 rfl⟩

/-- The six measurement flags of `SdssShapeAlgorithm`. -/
structure Flags where
  failure : Bool
  unweightedBad : Bool
  unweighted : Bool
  shift : Bool
  maxIterFlag : Bool
  psfShapeBad : Bool

def Flags.init : Flags := ⟨false, false, false, false, false, false⟩

/-- Pointwise flag implication: `f ≤ g` when every flag set in `f` is set
in `g` (the order in which "flags are only ever set" is monotonicity). -/
def Flags.le (f g : Flags) : Prop :=
  (f.failure = true → g.failure = true) ∧
  (f.unweightedBad = true → g.unweightedBad = true) ∧
  (f.unweighted = true → g.unweighted = true) ∧
  (f.shift = true → g.shift = true) ∧
  (f.maxIterFlag = true → g.maxIterFlag = true) ∧
  (f.psfShapeBad = true → g.psfShapeBad = true)

lemma Flags.le_refl (f : Flags) : Flags.le f f :=
  ⟨id, id, id, id, id, id⟩

lemma Flags.le_trans {f g h : Flags} (h1 : Flags.le f g) (h2 : Flags.le g h) :
    Flags.le f h :=
  ⟨fun a => h2.1 (h1.1 a), fun a => h2.2.1 (h1.2.1 a), fun a => h2.2.2.1 (h1.2.2.1 a),
    fun a => h2.2.2.2.1 (h1.2.2.2.1 a), fun a => h2.2.2.2.2.1 (h1.2.2.2.2.1 a),
    fun a => h2.2.2.2.2.2 (h1.2.2.2.2.2 a)⟩

/-- The `SdssShapeResult` record: centroid, second moments, flux, the ten
error/covariance terms, and the flags.  All numeric fields are modelled as
possibly-NaN doubles; initial values are the NaN sentinels (modelled from
the spec: failure paths leave fields at not-a-number sentinels). -/
structure SdssShapeResult where
  x : FV
  y : FV
  xx : FV
  xy : FV
  yy : FV
  instFlux : FV
  instFluxErr : FV
  xxErr : FV
  yyErr : FV
  xyErr : FV
  instFlux_xx_Cov : FV
  instFlux_yy_Cov : FV
  instFlux_xy_Cov : FV
  xx_yy_Cov : FV
  xx_xy_Cov : FV
  yy_xy_Cov : FV
  flags : Flags

def SdssShapeResult.init : SdssShapeResult :=
  ⟨.nan, .nan, .nan, .nan, .nan, .nan, .nan, .nan, .nan, .nan,
    .nan, .nan, .nan, .nan, .nan, .nan, Flags.init⟩

/-- Exceptions that can propagate out of `getAdaptiveMoments` (caught by
`computeAdaptiveMoments`), plus the `LogicError` thrown by
`computeAdaptiveMoments` itself. -/
inductive AmError where
  | calcmomFailed (e : CalcmomError) : AmError
  | fisherDomainError : AmError
  | logicError : AmError

/-- The Fisher matrix of `calc_fisher` (SdssShape.cc lines 100-123) with
the normalization `F = π·sqrt(D)/bkgd_var` abstracted as the parameter
`f`; `fac = f·A/(4D)` weights the flux-shape cross terms and
`fac2 = 3·f·A²/(16D²)` the shape-shape terms. -/
noncomputable def fisherBase (f amp xx xy yy : ℝ) : Matrix (Fin 4) (Fin 4) ℝ :=
  Matrix.of
    ![![f, f * amp / (4 * (xx * yy - xy * xy)) * yy,
        f * amp / (4 * (xx * yy - xy * xy)) * xx,
        -(f * amp / (4 * (xx * yy - xy * xy))) * 2 * xy],
      ![f * amp / (4 * (xx * yy - xy * xy)) * yy,
        3 * f * amp * amp / (16 * ((xx * yy - xy * xy) * (xx * yy - xy * xy))) * (yy * yy),
        3 * f * amp * amp / (16 * ((xx * yy - xy * xy) * (xx * yy - xy * xy))) *
          (xy * xy + (xx * yy - xy * xy) / 3),
        3 * f * amp * amp / (16 * ((xx * yy - xy * xy) * (xx * yy - xy * xy))) *
          (-2 * yy * xy)],
      ![f * amp / (4 * (xx * yy - xy * xy)) * xx,
        3 * f * amp * amp / (16 * ((xx * yy - xy * xy) * (xx * yy - xy * xy))) *
          (xy * xy + (xx * yy - xy * xy) / 3),
        3 * f * amp * amp / (16 * ((xx * yy - xy * xy) * (xx * yy - xy * xy))) * (xx * xx),
        3 * f * amp * amp / (16 * ((xx * yy - xy * xy) * (xx * yy - xy * xy))) *
          (-2 * xx * xy)],
      ![-(f * amp / (4 * (xx * yy - xy * xy))) * 2 * xy,
        3 * f * amp * amp / (16 * ((xx * yy - xy * xy) * (xx * yy - xy * xy))) *
          (-2 * yy * xy),
        3 * f * amp * amp / (16 * ((xx * yy - xy * xy) * (xx * yy - xy * xy))) *
          (-2 * xx * xy),
        3 * f * amp * amp / (16 * ((xx * yy - xy * xy) * (xx * yy - xy * xy))) *
          (4 * (xy * xy + (xx * yy - xy * xy) / 3))]]

/-- Embedding of `calc_fisher` (SdssShape.cc lines 76-124): fails
(`DomainError`) when the shape determinant is at or below double machine
epsilon or the background variance is non-positive; otherwise builds the
analytic Fisher matrix with `F = π·sqrt(D)/bkgd_var`. -/
noncomputable def calcFisher (amp xx xy yy bkgdVar : ℝ) :
    Except AmError (Matrix (Fin 4) (Fin 4) ℝ) :=
  if xx * yy - xy * xy ≤ DBL_EPSILON then .error .fisherDomainError
  else if bkgdVar ≤ 0 then .error .fisherDomainError
  else .ok (fisherBase (Real.pi * Real.sqrt (xx * yy - xy * xy) / bkgdVar) amp xx xy yy)

set_option maxHeartbeats 1600000 in
/-- The determinant of a symmetric 4×4 matrix, fully expanded. -/
lemma det4_symm (m00 m01 m02 m03 m11 m12 m13 m22 m23 m33 : ℝ) :
    (Matrix.of ![![m00, m01, m02, m03], ![m01, m11, m12, m13],
      ![m02, m12, m22, m23], ![m03, m13, m23, m33]]).det =
    m00 * m11 * m22 * m33 - m00 * m11 * m23 * m23 - m00 * m12 * m12 * m33
      + m00 * m12 * m23 * m13 + m00 * m13 * m12 * m23 - m00 * m13 * m22 * m13
      - m01 * m01 * m22 * m33 + m01 * m01 * m23 * m23 + m01 * m12 * m02 * m33
      - m01 * m12 * m23 * m03 - m01 * m13 * m02 * m23 + m01 * m13 * m22 * m03
      + m02 * m01 * m12 * m33 - m02 * m01 * m23 * m13 - m02 * m11 * m02 * m33
      + m02 * m11 * m23 * m03 + m02 * m13 * m02 * m13 - m02 * m13 * m12 * m03
      - m03 * m01 * m12 * m23 + m03 * m01 * m22 * m13 + m03 * m11 * m02 * m23
      - m03 * m11 * m22 * m03 - m03 * m12 * m02 * m13 + m03 * m12 * m12 * m03 := by
  simp [Matrix.det_succ_row_zero, Fin.sum_univ_succ,
    show ((1 : Fin 4).succAbove 2 : Fin 4) = 3 from rfl,
    show ((2 : Fin 4).succAbove 2 : Fin 4) = 3 from rfl,
    show (Fin.castSucc 2 : Fin 4) = 2 from rfl]
  ring

set_option maxHeartbeats 1600000 in
/-- The Fisher determinant with the two coefficient combinations `fac` and
`fac2` abstracted as atoms `s` and `v`. -/
lemma fisher_det_atoms (f s v a b c : ℝ) :
    (Matrix.of
      ![![f, s * c, s * a, -(s) * 2 * b],
        ![s * c, v * (c * c), v * (b * b + (a * c - b * b) / 3), v * (-2 * c * b)],
        ![s * a, v * (b * b + (a * c - b * b) / 3), v * (a * a), v * (-2 * a * b)],
        ![-(s) * 2 * b, v * (-2 * c * b), v * (-2 * a * b),
          v * (4 * (b * b + (a * c - b * b) / 3))]]).det =
    (a * c - b * b) ^ 3 * (32 * f * v ^ 3 - 48 * s ^ 2 * v ^ 2) / 27 := by
  rw [det4_symm]
  ring

set_option maxHeartbeats 800000 in
/-- Closed form of the Fisher determinant: `f⁴·A⁶ / (256·D³)`. -/
lemma fisherBase_det (f amp xx xy yy : ℝ) (hd : xx * yy - xy * xy ≠ 0) :
    (fisherBase f amp xx xy yy).det =
      f ^ 4 * amp ^ 6 / (256 * (xx * yy - xy * xy) ^ 3) := by
  have h := fisher_det_atoms f (f * amp / (4 * (xx * yy - xy * xy)))
    (3 * f * amp * amp / (16 * ((xx * yy - xy * xy) * (xx * yy - xy * xy)))) xx xy yy
  unfold fisherBase
  rw [h]
  field_simp
  ring

/-- Under `calc_fisher`'s own guards and a nonzero amplitude, the Fisher
matrix has nonzero determinant. -/
lemma fisherBase_det_ne_zero (amp xx xy yy bkgdVar : ℝ)
    (hd : DBL_EPSILON < xx * yy - xy * xy) (hv : 0 < bkgdVar) (ha : amp ≠ 0) :
    (fisherBase (Real.pi * Real.sqrt (xx * yy - xy * xy) / bkgdVar) amp xx xy yy).det ≠ 0 := by
  have hd0 : (0:ℝ) < xx * yy - xy * xy :=
    lt_trans (by rw [DBL_EPSILON]; norm_num) hd
  rw [fisherBase_det _ _ _ _ _ (ne_of_gt hd0)]
  have hf : (0:ℝ) < Real.pi * Real.sqrt (xx * yy - xy * xy) / bkgdVar := by
    apply div_pos
    · exact mul_pos Real.pi_pos (Real.sqrt_pos.mpr hd0)
    · exact hv
  have h4 : (0:ℝ) < (Real.pi * Real.sqrt (xx * yy - xy * xy) / bkgdVar) ^ 4 :=
    pow_pos hf 4
  have h6 : (0:ℝ) < amp ^ 6 := by positivity
  have h3 : (0:ℝ) < 256 * (xx * yy - xy * xy) ^ 3 := by positivity
  positivity

def setUnweighted (s : SdssShapeResult) : SdssShapeResult :=
  { s with flags := { s.flags with unweighted := true } }

/-- Parameters of one `getAdaptiveMoments` run (all in LOCAL pixel
coordinates; `xcen`, `ycen` are also the fixed initial centre the shift
test compares against, since the C++ locals `xcen0`, `ycen0` alias the
never-reassigned `xcen`, `ycen`). -/
structure AmParams where
  img : Img
  bkgd : ℝ
  xcen : ℝ
  ycen : ℝ
  shiftmax : ℝ
  tol1 : ℝ
  tol2 : ℝ
  negative : Bool
  maxIter : ℤ

/-- The mutable locals of the `getAdaptiveMoments` iteration. -/
structure AmState where
  shape : SdssShapeResult
  sigma11W : ℝ
  sigma12W : ℝ
  sigma22W : ℝ
  w11 : ℝ
  w12 : ℝ
  w22 : ℝ
  e1old : ℝ
  e2old : ℝ
  s11owOld : ℝ
  interpflag : Bool
  bbox : BoxI
  i0 : FV
  msum : ℝ
  msumx : ℝ
  msumy : ℝ
  msumxx : ℝ
  msumxy : ℝ
  msumyy : ℝ
  msums4 : ℝ

/-- Initial iteration state (SdssShape.cc lines 404-430): isotropic
starting covariance `(1.5, 0, 1.5)`, sentinel weights `-1`, old shape
parameters `10⁶`, `I0 = 0`, no interpolation, default (empty) box.  The
moment sums are uninitialized doubles in C++ and modelled as 0; they are
read before assignment only when `maxIter ≤ 0`. -/
def amInitState : AmState :=
  ⟨SdssShapeResult.init, 1.5, 0, 1.5, -1, -1, -1, 1000000, 1000000, 1000000,
    false, ⟨0, -1, 0, -1⟩, .fin 0, 0, 0, 0, 0, 0, 0, 0⟩

/-- How one `getAdaptiveMoments` iteration ends. -/
inductive LoopExit where
  | breakFlag : LoopExit
  | converged : LoopExit
  | earlyFalse : LoopExit
  | ranOut : LoopExit
  | fuelOut : LoopExit
  | threw (e : AmError) : LoopExit

structure LoopOut where
  st : AmState
  iter : ℤ
  exit : LoopExit

/-- The second half of one iteration, after `calcmom` has returned
successfully (SdssShape.cc lines 473-561): centroid update and shift
test, object covariance, convergence test, and the deconvolution update
of the weighting covariance. -/
noncomputable def amIterTail (p : AmParams) (iterCur : ℤ) (st : AmState)
    (st2 : AmState) (cm : CalcmomOut) (s11owOldU : ℝ) (w11u w12u w22u : ℝ) :
    Sum LoopOut (ℤ × AmState) :=
  let sh1 := { st2.shape with
               x := .fin (cm.moms.sumx / cm.moms.sum),
               y := .fin (cm.moms.sumy / cm.moms.sum) }
  let sh2 := if |cm.moms.sumx / cm.moms.sum - p.xcen| > p.shiftmax ∨
      |cm.moms.sumy / cm.moms.sum - p.ycen| > p.shiftmax then
    { sh1 with flags := { sh1.flags with shift := true } }
  else sh1
  let st3 := { st2 with shape := sh2 }
  let s11ow := cm.moms.sumxx / cm.moms.sum
  let s22ow := cm.moms.sumyy / cm.moms.sum
  let s12ow := cm.moms.sumxy / cm.moms.sum
  if s11ow ≤ 0 ∨ s22ow ≤ 0 then
    .inl ⟨{ st3 with shape := setUnweighted st3.shape }, iterCur, .breakFlag⟩
  else if 0 < iterCur ∧ |(s11ow - s22ow) / (s11ow + s22ow) - st.e1old| < p.tol1 ∧
      |2 * s12ow / (s11ow + s22ow) - st.e2old| < p.tol1 ∧
      |s11ow / s11owOldU - 1| < p.tol2 then
    .inl ⟨st3, iterCur, .converged⟩
  else
    let st4 := { st3 with
                 e1old := (s11ow - s22ow) / (s11ow + s22ow),
                 e2old := 2 * s12ow / (s11ow + s22ow), s11owOld := s11ow }
    let gw2 := getWeightsR s11ow s12ow s22ow
    if gw2.ok = false then
      .inl ⟨{ st4 with shape := setUnweighted st4.shape }, iterCur, .breakFlag⟩
    else
      let gw3 := getWeightsR (gw2.w11.val - w11u) (gw2.w12.val - w12u)
        (gw2.w22.val - w22u)
      if gw3.ok = false then
        .inl ⟨{ st4 with shape := setUnweighted st4.shape }, iterCur, .breakFlag⟩
      else
        let st5 := { st4 with
                     sigma11W := gw3.w11.val,
                     sigma12W := gw3.w12.val, sigma22W := gw3.w22.val }
        if gw3.w11.val ≤ 0 ∨ gw3.w22.val ≤ 0 then
          .inl ⟨{ st5 with shape := setUnweighted st5.shape }, iterCur, .breakFlag⟩
        else
          .inr (iterCur + 1, st5)

/-- One iteration of the `getAdaptiveMoments` loop body (SdssShape.cc
lines 432-561): bounding box, weights, the degenerate-covariance early
return, the interpolation-transition redo, the `calcmom` call, and the
iteration tail.  `Sum.inl` is a loop exit; `Sum.inr` continues. -/
noncomputable def amLoopBody (p : AmParams) (iter : ℤ) (st : AmState) :
    Sum LoopOut (ℤ × AmState) :=
  let bbox := computeAdaptiveMomentsBBox p.img.bboxLocal p.xcen p.ycen
    st.sigma11W st.sigma22W
  let gw := getWeightsR st.sigma11W st.sigma12W st.sigma22W
  let st1 := { st with bbox := bbox }
  if gw.ok = false then
    .inl ⟨{ st1 with shape := setUnweighted st1.shape }, iter, .breakFlag⟩
  else if st.sigma11W * st.sigma22W < st.sigma12W * st.sigma12W - FLT_EPSILON then
    .inl ⟨st1, iter, .earlyFalse⟩
  else
    let doInterp := shouldInterp st.sigma11W st.sigma22W gw.det.val
    let redo : Bool := doInterp && !st.interpflag && decide (0 < iter)
    let interp2 : Bool := st.interpflag || doInterp
    let w11u := if redo = true then st.w11 else gw.w11.val
    let w12u := if redo = true then st.w12 else gw.w12.val
    let w22u := if redo = true then st.w22 else gw.w22.val
    let s11owOldU := if redo = true then (1000000 : ℝ) else st.s11owOld
    let iterCur := if redo = true then iter - 1 else iter
    match calcmom p.img p.xcen p.ycen bbox p.bkgd interp2 w11u w12u w22u p.negative with
    | .error e => .inl ⟨st1, iterCur, .threw (.calcmomFailed e)⟩
    | .ok cm =>
      let st2 := { st1 with
                   interpflag := interp2, w11 := w11u, w12 := w12u,
                   w22 := w22u, s11owOld := s11owOldU, i0 := cm.i0,
                   msum := cm.moms.sum, msumx := cm.moms.sumx, msumy := cm.moms.sumy,
                   msumxx := cm.moms.sumxx, msumxy := cm.moms.sumxy,
                   msumyy := cm.moms.sumyy, msums4 := cm.moms.sums4 }
      if cm.status < 0 then
        .inl ⟨{ st2 with shape := setUnweighted st2.shape }, iterCur, .breakFlag⟩
      else
        amIterTail p iterCur st st2 cm s11owOldU w11u w12u w22u

/-- Embedding of the iteration loop of `getAdaptiveMoments` (SdssShape.cc
lines 431-562).  `fuel` bounds the recursion; with `fuel ≥ maxIter + 2`
the `fuelOut` case is unreachable because `iter` advances every iteration
except at the single interpolation transition. -/
noncomputable def amLoop (p : AmParams) : ℕ → ℤ → AmState → LoopOut
  | 0, iter, st => ⟨st, iter, .fuelOut⟩
  | fuel + 1, iter, st =>
    if iter < p.maxIter then
      match amLoopBody p iter st with
      | .inl out => out
      | .inr (iter2, st2) => amLoop p fuel iter2 st2
    else ⟨st, iter, .ranOut⟩

/-- The post-loop flag checks (SdssShape.cc lines 564-571): exhausting the
iteration count sets `unweighted` and `maxIter`; zero second moments set
`unweighted`. -/
noncomputable def amPostFlags (shape : SdssShapeResult) (iterFinal maxIter : ℤ)
    (sumxx sumyy : ℝ) : SdssShapeResult :=
  let s1 := if iterFinal = maxIter then
    { shape with flags := { shape.flags with unweighted := true, maxIterFlag := true } }
  else shape
  if sumxx + sumyy = 0 then setUnweighted s1 else s1

/-- Result of the unweighted-fallback phase. -/
structure FallbackOut where
  threw : Option AmError
  aborted : Bool
  shape : SdssShapeResult
  sigma11W : ℝ
  sigma12W : ℝ
  sigma22W : ℝ
  i0 : FV

/-- Embedding of the unweighted-moments fallback (SdssShape.cc lines
575-596): if the `unweighted` flag is set, rerun `calcmom` with zero
weights over the last bounding box; if that also fails or the sum has the
wrong sign, *clear* `unweighted`, set `unweightedBad`, optionally install
the degenerate single-pixel shape, and abort with `return false`;
otherwise take the unweighted moment ratios as the output covariance. -/
noncomputable def amFallback (p : AmParams) (st : AmState)
    (shape : SdssShapeResult) : FallbackOut :=
  if shape.flags.unweighted = true then
    match calcmom p.img p.xcen p.ycen st.bbox p.bkgd st.interpflag 0 0 0 p.negative with
    | .error e =>
      ⟨some (.calcmomFailed e), true, shape, st.sigma11W, st.sigma12W, st.sigma22W, st.i0⟩
    | .ok cm =>
      if cm.status < 0 ∨ (p.negative = false ∧ cm.moms.sum ≤ 0) ∨
          (p.negative = true ∧ cm.moms.sum ≥ 0) then
        let sh1 := { shape with
                     flags := { shape.flags with
                                unweighted := false, unweightedBad := true } }
        let sh2 := if cm.moms.sum > 0 then
          { sh1 with xx := .fin (1/12), xy := .fin 0, yy := .fin (1/12) }
        else sh1
        ⟨none, true, sh2, st.sigma11W, st.sigma12W, st.sigma22W, cm.i0⟩
      else
        ⟨none, false, shape, cm.moms.sumxx / cm.moms.sum, cm.moms.sumxy / cm.moms.sum,
          cm.moms.sumyy / cm.moms.sum, cm.i0⟩
  else ⟨none, false, shape, st.sigma11W, st.sigma12W, st.sigma22W, st.i0⟩

/-- Embedding of the result-assembly and error-propagation tail of
`getAdaptiveMoments` (SdssShape.cc lines 598-629): store the flux
amplitude and shape; when the shape trace is nonzero, the centre pixel is
in bounds, the background variance is positive and the `unweighted` flag is
clear, build the Fisher matrix and read the ten covariance terms off its
inverse (a NaN amplitude propagates NaN through all of them). -/
noncomputable def amTail (img : Img) (xcen ycen : ℝ) (shape : SdssShapeResult)
    (s11W s12W s22W : ℝ) (i0 : FV) : (Option AmError) × SdssShapeResult :=
  let sh1 := { shape with
               instFlux := i0, xx := .fin s11W, xy := .fin s12W,
               yy := .fin s22W }
  if s11W + s22W ≠ 0 then
    if 0 ≤ ⌊xcen + 0.5⌋ ∧ ⌊xcen + 0.5⌋ < img.width ∧
        0 ≤ ⌊ycen + 0.5⌋ ∧ ⌊ycen + 0.5⌋ < img.height then
      let bv := img.getVariance ⌊xcen + 0.5⌋ ⌊ycen + 0.5⌋
      if bv.gtb (.fin 0) = true then
        if sh1.flags.unweighted = false then
          match i0 with
          | .nan =>
            (none, { sh1 with
                     instFluxErr := .nan, xxErr := .nan, yyErr := .nan,
                     xyErr := .nan, instFlux_xx_Cov := .nan, instFlux_yy_Cov := .nan,
                     instFlux_xy_Cov := .nan, xx_yy_Cov := .nan, xx_xy_Cov := .nan,
                     yy_xy_Cov := .nan })
          | .fin amp =>
            match calcFisher amp s11W s12W s22W bv.val with
            | .error e => (some e, sh1)
            | .ok m =>
              (none, { sh1 with
                       instFluxErr := (FV.fin (m⁻¹ 0 0)).sqrtv,
                       xxErr := (FV.fin (m⁻¹ 1 1)).sqrtv,
                       yyErr := (FV.fin (m⁻¹ 2 2)).sqrtv,
                       xyErr := (FV.fin (m⁻¹ 3 3)).sqrtv,
                       instFlux_xx_Cov := .fin (m⁻¹ 0 1),
                       instFlux_yy_Cov := .fin (m⁻¹ 0 2),
                       instFlux_xy_Cov := .fin (m⁻¹ 0 3),
                       xx_yy_Cov := .fin (m⁻¹ 1 2),
                       xx_xy_Cov := .fin (m⁻¹ 1 3),
                       yy_xy_Cov := .fin (m⁻¹ 2 3) })
        else (none, sh1)
      else (none, sh1)
    else (none, sh1)
  else (none, sh1)

/-- Return of `getAdaptiveMoments`: whether an exception escaped, the
boolean return value, and the (partially) filled result record. -/
structure AmReturn where
  threw : Option AmError
  ok : Bool
  shape : SdssShapeResult

/-- Embedding of `getAdaptiveMoments` (SdssShape.cc lines 401-632),
composed from the iteration loop, the post-loop flag checks, the
unweighted fallback and the error-propagation tail. -/
noncomputable def getAdaptiveMoments (img : Img) (bkgd : ℝ) (xc yc : FV)
    (shiftmax : ℝ) (maxIter : ℤ) (tol1 tol2 : ℝ) (negative : Bool) : AmReturn :=
  if xc.isnan = true ∨ yc.isnan = true then
    ⟨none, false, { SdssShapeResult.init with
                    flags := { SdssShapeResult.init.flags with
                               unweightedBad := true } }⟩
  else
    let p : AmParams := ⟨img, bkgd, xc.val, yc.val, shiftmax, tol1, tol2, negative, maxIter⟩
    let lo := amLoop p (maxIter.toNat + 2) 0 amInitState
    match lo.exit with
    | .threw e => ⟨some e, false, lo.st.shape⟩
    | .earlyFalse => ⟨none, false, lo.st.shape⟩
    | _ =>
      let sh := amPostFlags lo.st.shape lo.iter maxIter lo.st.msumxx lo.st.msumyy
      let fb := amFallback p lo.st sh
      match fb.threw with
      | some e => ⟨some e, false, fb.shape⟩
      | none =>
        if fb.aborted = true then ⟨none, false, fb.shape⟩
        else
          let t := amTail img p.xcen p.ycen fb.shape fb.sigma11W fb.sigma12W
            fb.sigma22W fb.i0
          match t.1 with
          | some e => ⟨some e, false, t.2⟩
          | none => ⟨none, true, t.2⟩

/-- The configuration consumed by `computeAdaptiveMoments`. -/
structure Control where
  background : ℝ
  maxIter : ℤ
  maxShift : ℝ
  tol1 : ℝ
  tol2 : ℝ

/-- The post-`getAdaptiveMoments` assembly of `computeAdaptiveMoments`:
the caught-exception and return-value failure flag, the umbrella flag
derived from `unweighted`/`shift`, the `LogicError` consistency check, and
the `2π·sqrt(det)` flux scaling with the shift back to parent
coordinates. -/
noncomputable def amAssemble (img : Img) (r : AmReturn) :
    Except AmError SdssShapeResult :=
  let f1 := { r.shape with
              flags := { r.shape.flags with
                         failure := r.threw.isSome || !r.ok } }
  let f2 := if f1.flags.unweighted || f1.flags.shift then
    { f1 with flags := { f1.flags with failure := true } }
  else f1
  if (f2.xx.mul f2.yy).ltb ((FV.fin (1 + 1/1000000)).mul (f2.xy.mul f2.xy)) = true ∧
      f2.flags.failure = false then
    .error .logicError
  else
    let scale := (FV.fin (2 * Real.pi)).mul
      (((f2.xx.mul f2.yy).sub (f2.xy.mul f2.xy)).sqrtv)
    let res := { f2 with
                 instFlux := f2.instFlux.mul scale,
                 instFluxErr := f2.instFluxErr.mul scale,
                 x := f2.x.add (.fin img.x0), y := f2.y.add (.fin img.y0) }
    if img.hasVariance then
      .ok { res with
            instFlux_xx_Cov := res.instFlux_xx_Cov.mul scale,
            instFlux_yy_Cov := res.instFlux_yy_Cov.mul scale,
            instFlux_xy_Cov := res.instFlux_xy_Cov.mul scale }
    else .ok res

/-- Embedding of `SdssShapeAlgorithm::computeAdaptiveMoments`
(SdssShape.cc lines 765-831): shift to local coordinates, clamp
`maxShift` into `[2, 10]`, run `getAdaptiveMoments` with exceptions
caught into the `failure` flag, and assemble the final result. -/
noncomputable def computeAdaptiveMoments (img : Img) (cx cy : FV)
    (negative : Bool) (ctrl : Control) : Except AmError SdssShapeResult :=
  amAssemble img
    (getAdaptiveMoments img ctrl.background (cx.sub (.fin img.x0))
      (cy.sub (.fin img.y0))
      (if ctrl.maxShift < 2 then 2 else if ctrl.maxShift > 10 then 10 else ctrl.maxShift)
      ctrl.maxIter ctrl.tol1 ctrl.tol2 negative)

lemma amAssemble_flags {img : Img} {r : AmReturn} {res : SdssShapeResult}
    (h : amAssemble img r = .ok res)
    (hus : res.flags.unweighted = true ∨ res.flags.shift = true) :
    res.flags.failure = true := by
  simp only [amAssemble] at h
  by_cases hc : (r.shape.flags.unweighted || r.shape.flags.shift) = true
  · rw [if_pos hc] at h
    rw [if_neg (by simp)] at h
    split at h <;> (simp only [Except.ok.injEq] at h; subst h; rfl)
  · rw [if_neg hc] at h
    rw [Bool.or_eq_true, not_or] at hc
    split at h
    · cases h
    · have hresflags : res.flags.unweighted = r.shape.flags.unweighted ∧
          res.flags.shift = r.shape.flags.shift := by
        split at h <;> (simp only [Except.ok.injEq] at h; subst h; exact ⟨rfl, rfl⟩)
      rcases hus with hu | hs
      · rw [hresflags.1] at hu
        exact absurd hu (by simpa using hc.1)
      · rw [hresflags.2] at hs
        exact absurd hs (by simpa using hc.2)

/-- **C10.** Every result returned (not thrown) by
`computeAdaptiveMoments` that carries the `unweighted` or the `shift` flag
also carries the umbrella `failure` flag: a measurement that fell back to
unweighted moments or shifted beyond the maximum is always reported as
failed. -/
theorem computeAM_unweighted_shift_failure {img : Img} {cx cy : FV}
    {negative : Bool} {ctrl : Control} {res : SdssShapeResult}
    (h : computeAdaptiveMoments img cx cy negative ctrl = .ok res)
    (hus : res.flags.unweighted = true ∨ res.flags.shift = true) :
    res.flags.failure = true := by
  unfold computeAdaptiveMoments at h
  exact amAssemble_flags h hus

/-- **C8.** Error propagation: (1) a near-singular Fisher configuration
(shape determinant at or below machine epsilon, or non-positive variance)
makes `calc_fisher` fail rather than produce a matrix; (2) whenever
`calc_fisher` does produce a matrix and the amplitude is nonzero, that
matrix is invertible — its determinant is nonzero and the stored
covariance `M⁻¹` is a genuine two-sided inverse, not zeroed or garbage
values; (3) an error thrown anywhere inside `getAdaptiveMoments`
(including the Fisher step) is reported to the caller: any result that
`computeAdaptiveMoments`'s assembly returns after a throw carries the
`failure` flag. -/
theorem fisher_inversion_reported :
    (∀ amp xx xy yy bkgdVar : ℝ,
      xx * yy - xy * xy ≤ DBL_EPSILON ∨ bkgdVar ≤ 0 →
      calcFisher amp xx xy yy bkgdVar = .error .fisherDomainError) ∧
    (∀ (amp xx xy yy bkgdVar : ℝ) (M : Matrix (Fin 4) (Fin 4) ℝ),
      amp ≠ 0 → calcFisher amp xx xy yy bkgdVar = .ok M →
      M.det ≠ 0 ∧ M⁻¹ * M = 1 ∧ M * M⁻¹ = 1) ∧
    (∀ (img : Img) (r : AmReturn) (res : SdssShapeResult),
      amAssemble img r = .ok res → r.threw.isSome = true →
      res.flags.failure = true) := by
  refine ⟨?_, ?_, ?_⟩
  · intro amp xx xy yy bkgdVar hbad
    unfold calcFisher
    rcases hbad with hd | hv
    · rw [if_pos hd]
    · by_cases hd : xx * yy - xy * xy ≤ DBL_EPSILON
      · rw [if_pos hd]
      · rw [if_neg hd, if_pos hv]
  · intro amp xx xy yy bkgdVar M ha h
    unfold calcFisher at h
    split at h
    · cases h
    · split at h
      · cases h
      · rename_i hd hv
        simp only [Except.ok.injEq] at h
        subst h
        have hdet : (fisherBase (Real.pi * Real.sqrt (xx * yy - xy * xy) / bkgdVar)
            amp xx xy yy).det ≠ 0 :=
          fisherBase_det_ne_zero amp xx xy yy bkgdVar (not_le.mp hd) (not_le.mp hv) ha
        exact ⟨hdet, Matrix.nonsing_inv_mul _ (isUnit_iff_ne_zero.mpr hdet),
          Matrix.mul_nonsing_inv _ (isUnit_iff_ne_zero.mpr hdet)⟩
  · intro img r res h hthrew
    simp only [amAssemble] at h
    have hf1 : (r.threw.isSome || !r.ok) = true := by
      rw [hthrew]
      rfl
    by_cases hc : (r.shape.flags.unweighted || r.shape.flags.shift) = true
    · rw [if_pos hc] at h
      rw [if_neg (by simp)] at h
      split at h <;> (simp only [Except.ok.injEq] at h; subst h; rfl)
    · rw [if_neg hc] at h
      rw [if_neg (by simp [hf1])] at h
      split at h <;> (simp only [Except.ok.injEq] at h; subst h; exact hf1)

/-- Witness for C8 at concrete inputs: a zero-determinant shape makes
`calc_fisher` fail; the unit-circle shape with amplitude 1 and variance 1
yields an invertible Fisher matrix; and an assembly after a throw carries
the `failure` flag. -/
theorem fisher_inversion_reported_witness :
    calcFisher 1 0 0 0 1 = .error .fisherDomainError ∧
    ((fisherBase (Real.pi * Real.sqrt (1 * 1 - 0 * 0) / 1) 1 1 0 1).det ≠ 0 ∧
      (fisherBase (Real.pi * Real.sqrt (1 * 1 - 0 * 0) / 1) 1 1 0 1)⁻¹ *
        fisherBase (Real.pi * Real.sqrt (1 * 1 - 0 * 0) / 1) 1 1 0 1 = 1 ∧
      fisherBase (Real.pi * Real.sqrt (1 * 1 - 0 * 0) / 1) 1 1 0 1 *
        (fisherBase (Real.pi * Real.sqrt (1 * 1 - 0 * 0) / 1) 1 1 0 1)⁻¹ = 1) ∧
    (amAssemble imgOnePix ⟨some .fisherDomainError, false, SdssShapeResult.init⟩).map
      (fun res => res.flags.failure) = .ok true := by
  have hok : calcFisher 1 1 0 1 1 =
      .ok (fisherBase (Real.pi * Real.sqrt (1 * 1 - 0 * 0) / 1) 1 1 0 1) := by
    unfold calcFisher
    rw [if_neg (by rw [DBL_EPSILON]; norm_num), if_neg (by norm_num)]
  refine ⟨?_, ?_, ?_⟩
  · exact fisher_inversion_reported.1 1 0 0 0 1 (Or.inl (by rw [DBL_EPSILON]; norm_num))
  · exact fisher_inversion_reported.2.1 1 1 0 1 1 _ (by norm_num) hok
  · have heval : amAssemble imgOnePix ⟨some .fisherDomainError, false, SdssShapeResult.init⟩ =
        .ok ((amAssemble imgOnePix
          ⟨some .fisherDomainError, false, SdssShapeResult.init⟩).toOption.getD
            SdssShapeResult.init) := by
      simp only [amAssemble, SdssShapeResult.init, Flags.init]
      rw [if_neg (by simp [FV.mul, FV.ltb])]
      rfl
    rw [heval, Except.map]
    rw [fisher_inversion_reported.2.2 imgOnePix
      ⟨some .fisherDomainError, false, SdssShapeResult.init⟩ _ heval rfl]

lemma setUnweighted_le (s : SdssShapeResult) :
    Flags.le s.flags (setUnweighted s).flags :=
  ⟨id, id, fun _ => rfl, id, id, id⟩

lemma shiftSet_le (s : SdssShapeResult) :
    Flags.le s.flags { s with flags := { s.flags with shift := true } }.flags :=
  ⟨id, id, id, fun _ => rfl, id, id⟩

lemma le_then_unweighted {a : Flags} {s : SdssShapeResult}
    (h : Flags.le a s.flags) : Flags.le a (setUnweighted s).flags :=
  Flags.le_trans h (setUnweighted_le s)

lemma amIterTail_flags (p : AmParams) (iterCur : ℤ) (st st2 : AmState)
    (cm : CalcmomOut) (s11owOldU w11u w12u w22u : ℝ) (f : Flags)
    (hf : f = st2.shape.flags) :
    Flags.le f
      ((amIterTail p iterCur st st2 cm s11owOldU w11u w12u w22u).elim
        (fun out => out.st.shape.flags) (fun x => x.2.shape.flags)) := by
  subst hf
  simp only [amIterTail]
  by_cases hshift : |cm.moms.sumx / cm.moms.sum - p.xcen| > p.shiftmax ∨
      |cm.moms.sumy / cm.moms.sum - p.ycen| > p.shiftmax
  · simp only [if_pos hshift]
    split
    · exact le_then_unweighted (shiftSet_le _)
    · split
      · exact shiftSet_le _
      · split
        · exact le_then_unweighted (shiftSet_le _)
        · split
          · exact le_then_unweighted (shiftSet_le _)
          · split
            · exact le_then_unweighted (shiftSet_le _)
            · exact shiftSet_le _
  · simp only [if_neg hshift]
    split
    · exact le_then_unweighted (Flags.le_refl _)
    · split
      · exact Flags.le_refl _
      · split
        · exact le_then_unweighted (Flags.le_refl _)
        · split
          · exact le_then_unweighted (Flags.le_refl _)
          · split
            · exact le_then_unweighted (Flags.le_refl _)
            · exact Flags.le_refl _

lemma amLoopBody_flags (p : AmParams) (iter : ℤ) (st : AmState) :
    Flags.le st.shape.flags
      ((amLoopBody p iter st).elim
        (fun out => out.st.shape.flags) (fun x => x.2.shape.flags)) := by
  simp only [amLoopBody]
  split
  · exact setUnweighted_le _
  · split
    · exact Flags.le_refl _
    · split
      · exact Flags.le_refl _
      · rename_i cm heq
        split
        · exact setUnweighted_le _
        · exact amIterTail_flags p _ st _ cm _ _ _ _ _ rfl

/-- The iteration loop only ever *sets* flags: the flag set of the state
it returns dominates the flag set it started from. -/
lemma amLoop_flags_mono (p : AmParams) :
    ∀ (fuel : ℕ) (iter : ℤ) (st : AmState),
      Flags.le st.shape.flags ((amLoop p fuel iter st).st.shape.flags) := by
  intro fuel
  induction fuel with
  | zero =>
    intro iter st
    exact Flags.le_refl _
  | succ fuel ih =>
    intro iter st
    rw [amLoop]
    split
    · rcases hb : amLoopBody p iter st with out | ⟨iter2, st2⟩
      · have := amLoopBody_flags p iter st
        rw [hb] at this
        exact this
      · have := amLoopBody_flags p iter st
        rw [hb] at this
        exact Flags.le_trans this (ih iter2 st2)
    · exact Flags.le_refl _

lemma setUnweighted_le_of_eq (f : Flags) (s : SdssShapeResult) (hf : f = s.flags) :
    Flags.le f (setUnweighted s).flags := hf ▸ setUnweighted_le s

lemma amPostFlags_le (shape : SdssShapeResult) (iterF mx : ℤ) (sxx syy : ℝ) :
    Flags.le shape.flags (amPostFlags shape iterF mx sxx syy).flags := by
  have h1 : ∀ f : Flags, Flags.le f
      ⟨f.failure, f.unweightedBad, true, f.shift, true, f.psfShapeBad⟩ :=
    fun f => ⟨id, id, fun _ => rfl, id, fun _ => rfl, id⟩
  simp only [amPostFlags]
  split
  · split
    · exact Flags.le_trans (h1 shape.flags) (setUnweighted_le_of_eq _ _ rfl)
    · exact setUnweighted_le _
  · split
    · exact h1 shape.flags
    · exact Flags.le_refl _

lemma amFallback_facts (p : AmParams) (st : AmState) (shape : SdssShapeResult) :
    (amFallback p st shape).shape.flags.failure = shape.flags.failure ∧
    (amFallback p st shape).shape.flags.shift = shape.flags.shift ∧
    (amFallback p st shape).shape.flags.maxIterFlag = shape.flags.maxIterFlag ∧
    (amFallback p st shape).shape.flags.psfShapeBad = shape.flags.psfShapeBad ∧
    (shape.flags.unweightedBad = true →
      (amFallback p st shape).shape.flags.unweightedBad = true) ∧
    (shape.flags.unweighted = true →
      (amFallback p st shape).shape.flags.unweighted = true ∨
        ((amFallback p st shape).shape.flags.unweighted = false ∧
          (amFallback p st shape).shape.flags.unweightedBad = true ∧
          (amFallback p st shape).aborted = true)) := by
  simp only [amFallback]
  split
  · rename_i hu
    split
    · exact ⟨rfl, rfl, rfl, rfl, fun h => h, fun _ => Or.inl hu⟩
    · split
      · split
        · exact ⟨rfl, rfl, rfl, rfl, fun _ => rfl, fun _ => Or.inr ⟨rfl, rfl, rfl⟩⟩
        · exact ⟨rfl, rfl, rfl, rfl, fun _ => rfl, fun _ => Or.inr ⟨rfl, rfl, rfl⟩⟩
      · exact ⟨rfl, rfl, rfl, rfl, fun h => h, fun _ => Or.inl hu⟩
  · exact ⟨rfl, rfl, rfl, rfl, fun h => h, fun h => Or.inl h⟩

lemma amTail_flags (img : Img) (xcen ycen : ℝ) (shape : SdssShapeResult)
    (s11W s12W s22W : ℝ) (i0 : FV) :
    (amTail img xcen ycen shape s11W s12W s22W i0).2.flags = shape.flags := by
  simp only [amTail]
  split
  · split
    · split
      · split
        · split
          · rfl
          · split
            · rfl
            · rfl
        · rfl
      · rfl
    · rfl
  · rfl

lemma amAssemble_flagEq {img : Img} {r : AmReturn} {res : SdssShapeResult}
    (h : amAssemble img r = .ok res) :
    res.flags.failure = (r.threw.isSome || !r.ok || r.shape.flags.unweighted ||
      r.shape.flags.shift) ∧
    res.flags.unweightedBad = r.shape.flags.unweightedBad ∧
    res.flags.unweighted = r.shape.flags.unweighted ∧
    res.flags.shift = r.shape.flags.shift ∧
    res.flags.maxIterFlag = r.shape.flags.maxIterFlag ∧
    res.flags.psfShapeBad = r.shape.flags.psfShapeBad := by
  simp only [amAssemble] at h
  by_cases hc : (r.shape.flags.unweighted || r.shape.flags.shift) = true
  · rw [if_pos hc] at h
    rw [if_neg (by simp)] at h
    split at h <;> (simp only [Except.ok.injEq] at h; subst h) <;>
      refine ⟨?_, rfl, rfl, rfl, rfl, rfl⟩ <;>
      (show true = _; rw [Bool.or_assoc, hc, Bool.or_true])
  · rw [if_neg hc] at h
    rw [Bool.or_eq_true, not_or, Bool.not_eq_true, Bool.not_eq_true] at hc
    split at h
    · cases h
    · split at h <;> (simp only [Except.ok.injEq] at h; subst h) <;>
        refine ⟨?_, rfl, rfl, rfl, rfl, rfl⟩ <;>
        rw [hc.1, hc.2, Bool.or_false, Bool.or_false]

lemma amIterTail_inr (p : AmParams) (iterCur : ℤ) (st st2 : AmState)
    (cm : CalcmomOut) (s11owOldU w11u w12u w22u : ℝ) (i2 : ℤ) (s2 : AmState)
    (h : amIterTail p iterCur st st2 cm s11owOldU w11u w12u w22u = .inr (i2, s2)) :
    i2 = iterCur + 1 := by
  simp only [amIterTail] at h
  split at h
  · exact Sum.noConfusion h
  · split at h
    · exact Sum.noConfusion h
    · split at h
      · exact Sum.noConfusion h
      · split at h
        · exact Sum.noConfusion h
        · split at h
          · exact Sum.noConfusion h
          · simp only [Sum.inr.injEq, Prod.mk.injEq] at h
            exact h.1.symm

lemma amIterTail_exit (p : AmParams) (iterCur : ℤ) (st st2 : AmState)
    (cm : CalcmomOut) (s11owOldU w11u w12u w22u : ℝ) (out : LoopOut)
    (h : amIterTail p iterCur st st2 cm s11owOldU w11u w12u w22u = .inl out) :
    out.exit ≠ LoopExit.ranOut := by
  simp only [amIterTail] at h
  split at h
  · simp only [Sum.inl.injEq] at h
    subst h
    exact fun hc => LoopExit.noConfusion hc
  · split at h
    · simp only [Sum.inl.injEq] at h
      subst h
      exact fun hc => LoopExit.noConfusion hc
    · split at h
      · simp only [Sum.inl.injEq] at h
        subst h
        exact fun hc => LoopExit.noConfusion hc
      · split at h
        · simp only [Sum.inl.injEq] at h
          subst h
          exact fun hc => LoopExit.noConfusion hc
        · split at h
          · simp only [Sum.inl.injEq] at h
            subst h
            exact fun hc => LoopExit.noConfusion hc
          · exact Sum.noConfusion h

lemma amLoopBody_inr (p : AmParams) (iter : ℤ) (st : AmState) (i2 : ℤ)
    (s2 : AmState) (h : amLoopBody p iter st = .inr (i2, s2)) :
    i2 ≤ iter + 1 := by
  simp only [amLoopBody] at h
  split at h
  · exact Sum.noConfusion h
  · split at h
    · exact Sum.noConfusion h
    · split at h
      · exact Sum.noConfusion h
      · rename_i cm heq
        split at h
        · exact Sum.noConfusion h
        · have h2 := amIterTail_inr _ _ _ _ _ _ _ _ _ _ _ h
          split at h2 <;> omega

lemma amLoopBody_exit (p : AmParams) (iter : ℤ) (st : AmState) (out : LoopOut)
    (h : amLoopBody p iter st = .inl out) : out.exit ≠ LoopExit.ranOut := by
  simp only [amLoopBody] at h
  split at h
  · simp only [Sum.inl.injEq] at h
    subst h
    exact fun hc => LoopExit.noConfusion hc
  · split at h
    · simp only [Sum.inl.injEq] at h
      subst h
      exact fun hc => LoopExit.noConfusion hc
    · split at h
      · simp only [Sum.inl.injEq] at h
        subst h
        exact fun hc => LoopExit.noConfusion hc
      · rename_i cm heq
        split at h
        · simp only [Sum.inl.injEq] at h
          subst h
          exact fun hc => LoopExit.noConfusion hc
        · exact amIterTail_exit _ _ _ _ _ _ _ _ _ _ h

lemma amLoop_ranOut_iter (p : AmParams) :
    ∀ (fuel : ℕ) (iter : ℤ) (st : AmState), iter ≤ p.maxIter →
      (amLoop p fuel iter st).exit = LoopExit.ranOut →
      (amLoop p fuel iter st).iter = p.maxIter := by
  intro fuel
  induction fuel with
  | zero =>
    intro iter st hle hexit
    rw [amLoop] at hexit
    exact absurd hexit (fun hc => LoopExit.noConfusion hc)
  | succ fuel ih =>
    intro iter st hle hexit
    rw [amLoop] at hexit ⊢
    split at hexit
    · rename_i hlt
      rw [if_pos hlt]
      rcases hb : amLoopBody p iter st with out | ⟨i2, s2⟩
      · rw [hb] at hexit
        exact absurd hexit (amLoopBody_exit p iter st out hb)
      · rw [hb] at hexit
        have hle2 : i2 ≤ p.maxIter := by
          have := amLoopBody_inr p iter st i2 s2 hb
          omega
        exact ih i2 s2 hle2 hexit
    · rename_i hge
      rw [if_neg hge]
      show iter = p.maxIter
      omega

/-- A 1×1 all-zero image without a variance plane. -/
noncomputable def imgZero1 : Img := ⟨1, 1, 0, 0, fun _ _ => 0, fun _ _ => 0, false⟩

/-- The iteration parameters that `getAdaptiveMoments` builds for
`imgZero1` at centre `(0, 0)`, background `0`, `shiftmax = 2`,
`maxIter = 0` and tolerances `1/100`. -/
noncomputable def pZ0 : AmParams := ⟨imgZero1, 0, 0, 0, 2, 1/100, 1/100, false, 0⟩

lemma amLoop_pZ0 : amLoop pZ0 2 0 amInitState = ⟨amInitState, 0, .ranOut⟩ := by
  rw [amLoop]
  rw [if_neg (by norm_num [pZ0])]

lemma intRange_empty : intRange 0 (-1) = [] := by
  simp [intRange]

lemma calcmom_emptyBox_eval :
    calcmom imgZero1 0 0 ⟨0, -1, 0, -1⟩ 0 false 0 0 0 false =
      .ok ⟨.nan, Moms.zero, -1⟩ := by
  have hacc : calcmomAccum imgZero1 0 0 0 false 0 0 0 ⟨0, -1, 0, -1⟩ = Moms.zero := by
    unfold calcmomAccum
    rw [intRange_empty]
    rfl
  have hi0 : calcmomI0 0 0 0 (0 : ℝ) = .nan := by
    apply calcmomI0_of_fail
    rw [FLT_EPSILON]
    norm_num
  unfold calcmom
  rw [if_neg (by norm_num), if_neg (by simp [imgZero1])]
  simp only [hacc]
  rw [show Moms.zero.sum = (0:ℝ) from rfl, hi0]
  norm_num [Moms.zero]

lemma amPostFlags_init00 :
    amPostFlags SdssShapeResult.init 0 0 0 0 =
      { SdssShapeResult.init with
        flags := ⟨false, false, true, false, true, false⟩ } := by
  unfold amPostFlags
  rw [if_pos rfl]
  rw [if_pos (by norm_num)]
  rfl

lemma amFallback_pZ0 :
    amFallback pZ0 amInitState
        { SdssShapeResult.init with
          flags := ⟨false, false, true, false, true, false⟩ } =
      ⟨none, true,
        { SdssShapeResult.init with
          flags := ⟨false, true, false, false, true, false⟩ },
        1.5, 0, 1.5, .nan⟩ := by
  have hcm : calcmom pZ0.img pZ0.xcen pZ0.ycen amInitState.bbox pZ0.bkgd
      amInitState.interpflag 0 0 0 pZ0.negative = .ok ⟨.nan, Moms.zero, -1⟩ := by
    show calcmom imgZero1 0 0 ⟨0, -1, 0, -1⟩ 0 false 0 0 0 false = _
    exact calcmom_emptyBox_eval
  simp only [amFallback]
  rw [if_pos trivial]
  rw [hcm]
  dsimp only
  rw [if_pos (Or.inl (show (-1:ℤ) < 0 by norm_num))]
  rw [if_neg (show ¬Moms.zero.sum > 0 by norm_num [Moms.zero])]
  rfl

lemma getAM_Z0 :
    getAdaptiveMoments imgZero1 0 (.fin 0) (.fin 0) 2 0 (1/100) (1/100) false =
      ⟨none, false,
        { SdssShapeResult.init with
          flags := ⟨false, true, false, false, true, false⟩ }⟩ := by
  simp only [getAdaptiveMoments]
  rw [if_neg (by simp [FV.isnan])]
  rw [show (⟨imgZero1, 0, (FV.fin 0).val, (FV.fin 0).val, 2, 1/100, 1/100, false,
    (0:ℤ)⟩ : AmParams) = pZ0 from rfl]
  rw [show ((0:ℤ).toNat + 2) = 2 from rfl]
  rw [amLoop_pZ0]
  dsimp only
  rw [show amInitState.shape = SdssShapeResult.init from rfl]
  rw [show amInitState.msumxx = (0:ℝ) from rfl]
  rw [show amInitState.msumyy = (0:ℝ) from rfl]
  rw [amPostFlags_init00]
  rw [amFallback_pZ0]
  rfl

/-- A result record with every flag set, used to exercise the fallback
flag facts at a concrete input. -/
noncomputable def shAllFlags : SdssShapeResult :=
  { SdssShapeResult.init with flags := ⟨true, true, true, true, true, true⟩ }

/-- **C4 counterexample.** On the 1×1 zero image with `maxIter = 0` the
loop exhausts immediately and the post-loop checks set the `unweighted`
flag — yet the `unweighted` flag of the returned result is clear (the
failing unweighted fallback cleared it again, setting `unweightedBad`
instead), so a flag set during the measurement is not always still set on
the returned result. -/
theorem am_flag_monotonicity_counterexample :
    (amPostFlags (amLoop pZ0 2 0 amInitState).st.shape
        (amLoop pZ0 2 0 amInitState).iter 0
        (amLoop pZ0 2 0 amInitState).st.msumxx
        (amLoop pZ0 2 0 amInitState).st.msumyy).flags.unweighted = true ∧
    (getAdaptiveMoments imgZero1 0 (.fin 0) (.fin 0) 2 0 (1/100) (1/100)
        false).shape.flags.unweighted = false ∧
    (getAdaptiveMoments imgZero1 0 (.fin 0) (.fin 0) 2 0 (1/100) (1/100)
        false).shape.flags.unweightedBad = true := by
  refine ⟨?_, ?_, ?_⟩
  · rw [amLoop_pZ0]
    show (amPostFlags SdssShapeResult.init 0 0 0 0).flags.unweighted = true
    rw [amPostFlags_init00]
  · rw [getAM_Z0]
  · rw [getAM_Z0]

/-- **C4 (amended).** Within one adaptive-moments measurement the flag set
is monotonic through the iteration loop and the post-loop checks (flags
are only ever set there), is preserved verbatim by the error-propagation
tail, and the umbrella `failure` flag is derived at the end from the
exception / return-value state together with the `unweighted` and `shift`
flags (all other flags pass through the assembly unchanged).  The
unweighted-fallback phase, however, is an exception to monotonicity:
every flag other than `unweighted` survives it, but an `unweighted` flag
that was set going in is *cleared* exactly when the fallback
remeasurement itself fails — the phase then reports `unweightedBad` and
aborts the measurement. -/
theorem am_flag_monotonicity :
    (∀ (p : AmParams) (fuel : ℕ) (iter : ℤ) (st : AmState),
      Flags.le st.shape.flags ((amLoop p fuel iter st).st.shape.flags)) ∧
    (∀ (shape : SdssShapeResult) (iterF mx : ℤ) (sxx syy : ℝ),
      Flags.le shape.flags (amPostFlags shape iterF mx sxx syy).flags) ∧
    (∀ (p : AmParams) (st : AmState) (shape : SdssShapeResult),
      (amFallback p st shape).shape.flags.failure = shape.flags.failure ∧
      (amFallback p st shape).shape.flags.shift = shape.flags.shift ∧
      (amFallback p st shape).shape.flags.maxIterFlag = shape.flags.maxIterFlag ∧
      (amFallback p st shape).shape.flags.psfShapeBad = shape.flags.psfShapeBad ∧
      (shape.flags.unweightedBad = true →
        (amFallback p st shape).shape.flags.unweightedBad = true) ∧
      (shape.flags.unweighted = true →
        (amFallback p st shape).shape.flags.unweighted = true ∨
          ((amFallback p st shape).shape.flags.unweighted = false ∧
            (amFallback p st shape).shape.flags.unweightedBad = true ∧
            (amFallback p st shape).aborted = true))) ∧
    (∀ (img : Img) (xcen ycen : ℝ) (shape : SdssShapeResult)
      (s11W s12W s22W : ℝ) (i0 : FV),
      (amTail img xcen ycen shape s11W s12W s22W i0).2.flags = shape.flags) ∧
    (∀ (img : Img) (r : AmReturn) (res : SdssShapeResult),
      amAssemble img r = .ok res →
      res.flags.failure = (r.threw.isSome || !r.ok || r.shape.flags.unweighted ||
        r.shape.flags.shift) ∧
      res.flags.unweightedBad = r.shape.flags.unweightedBad ∧
      res.flags.unweighted = r.shape.flags.unweighted ∧
      res.flags.shift = r.shape.flags.shift ∧
      res.flags.maxIterFlag = r.shape.flags.maxIterFlag ∧
      res.flags.psfShapeBad = r.shape.flags.psfShapeBad) :=
  ⟨fun p fuel iter st => amLoop_flags_mono p fuel iter st,
   fun shape iterF mx sxx syy => amPostFlags_le shape iterF mx sxx syy,
   fun p st shape => amFallback_facts p st shape,
   fun img xcen ycen shape s11W s12W s22W i0 =>
     amTail_flags img xcen ycen shape s11W s12W s22W i0,
   fun _ _ _ h => amAssemble_flagEq h⟩

/-- Witness for C4 at concrete inputs: loop and post-loop monotonicity on
the zero-image run, the fallback facts on an all-flags-set record, the
tail preserving the initial flags, and the assembled failure flag of a
clean return. -/
theorem am_flag_monotonicity_witness :
    Flags.le amInitState.shape.flags ((amLoop pZ0 2 0 amInitState).st.shape.flags) ∧
    Flags.le SdssShapeResult.init.flags
      (amPostFlags SdssShapeResult.init 0 0 0 0).flags ∧
    shAllFlags.flags.unweightedBad = true ∧
    (amFallback pZ0 amInitState shAllFlags).shape.flags.unweightedBad = true ∧
    shAllFlags.flags.unweighted = true ∧
    ((amFallback pZ0 amInitState shAllFlags).shape.flags.unweighted = true ∨
      ((amFallback pZ0 amInitState shAllFlags).shape.flags.unweighted = false ∧
        (amFallback pZ0 amInitState shAllFlags).shape.flags.unweightedBad = true ∧
        (amFallback pZ0 amInitState shAllFlags).aborted = true)) ∧
    (amTail imgZero1 0 0 SdssShapeResult.init 1 0 1 (.fin 1)).2.flags =
      SdssShapeResult.init.flags ∧
    ((amAssemble imgZero1 ⟨none, true, SdssShapeResult.init⟩).toOption.getD
        SdssShapeResult.init).flags.failure =
      ((none : Option AmError).isSome || !true ||
        SdssShapeResult.init.flags.unweighted || SdssShapeResult.init.flags.shift) := by
  have heval : amAssemble imgZero1 ⟨none, true, SdssShapeResult.init⟩ =
      .ok ((amAssemble imgZero1 ⟨none, true, SdssShapeResult.init⟩).toOption.getD
        SdssShapeResult.init) := by
    simp only [amAssemble, SdssShapeResult.init, Flags.init]
    rw [if_neg (by simp [FV.mul, FV.ltb])]
    rfl
  refine ⟨am_flag_monotonicity.1 pZ0 2 0 amInitState,
    am_flag_monotonicity.2.1 SdssShapeResult.init 0 0 0 0,
    rfl,
    (am_flag_monotonicity.2.2.1 pZ0 amInitState shAllFlags).2.2.2.2.1 rfl,
    rfl,
    (am_flag_monotonicity.2.2.1 pZ0 amInitState shAllFlags).2.2.2.2.2 rfl,
    am_flag_monotonicity.2.2.2.1 imgZero1 0 0 SdssShapeResult.init 1 0 1 (.fin 1),
    (am_flag_monotonicity.2.2.2.2 imgZero1 ⟨none, true, SdssShapeResult.init⟩ _
      heval).1⟩

/-- **C5 counterexample.** On the 1×1 zero image with `maxIter = 0` the
loop exhausts the maximum iteration count (`ranOut`), the result carries
the `maxIter` flag — but NOT the `unweighted` flag: the failing
unweighted fallback cleared it before the result was returned, so
exceeding the iteration count does not guarantee that `unweighted` is set
on the result. -/
theorem maxIter_exhaustion_counterexample :
    (amLoop pZ0 2 0 amInitState).exit = LoopExit.ranOut ∧
    (getAdaptiveMoments imgZero1 0 (.fin 0) (.fin 0) 2 0 (1/100) (1/100)
        false).shape.flags.maxIterFlag = true ∧
    (getAdaptiveMoments imgZero1 0 (.fin 0) (.fin 0) 2 0 (1/100) (1/100)
        false).shape.flags.unweighted = false := by
  refine ⟨?_, ?_, ?_⟩
  · rw [amLoop_pZ0]
  · rw [getAM_Z0]
  · rw [getAM_Z0]

/-- **C5 (amended).** When the iteration loop exhausts the maximum
iteration count (`ranOut` exit, reachable only with the final iteration
counter equal to `maxIter`), the post-loop checks set both the
`unweighted` and the `maxIter` flag; on the result eventually returned
the `maxIter` flag is still set, while the `unweighted` flag survives as
either `unweighted` or (if the unweighted fallback failed and cleared it)
`unweightedBad`. -/
theorem maxIter_exhaustion_flags (img : Img) (bkgd : ℝ) (xc yc : FV)
    (shiftmax : ℝ) (maxIter : ℤ) (tol1 tol2 : ℝ) (negative : Bool)
    (hx : xc.isnan = false) (hy : yc.isnan = false) (hmax : 0 ≤ maxIter)
    (hexit : (amLoop ⟨img, bkgd, xc.val, yc.val, shiftmax, tol1, tol2, negative,
        maxIter⟩ (maxIter.toNat + 2) 0 amInitState).exit = LoopExit.ranOut) :
    (∀ (shape : SdssShapeResult) (sxx syy : ℝ),
      (amPostFlags shape maxIter maxIter sxx syy).flags.unweighted = true ∧
      (amPostFlags shape maxIter maxIter sxx syy).flags.maxIterFlag = true) ∧
    (amLoop ⟨img, bkgd, xc.val, yc.val, shiftmax, tol1, tol2, negative,
        maxIter⟩ (maxIter.toNat + 2) 0 amInitState).iter = maxIter ∧
    (getAdaptiveMoments img bkgd xc yc shiftmax maxIter tol1 tol2
        negative).shape.flags.maxIterFlag = true ∧
    ((getAdaptiveMoments img bkgd xc yc shiftmax maxIter tol1 tol2
        negative).shape.flags.unweighted = true ∨
      (getAdaptiveMoments img bkgd xc yc shiftmax maxIter tol1 tol2
        negative).shape.flags.unweightedBad = true) := by
  have hiter : (amLoop ⟨img, bkgd, xc.val, yc.val, shiftmax, tol1, tol2, negative,
      maxIter⟩ (maxIter.toNat + 2) 0 amInitState).iter = maxIter :=
    amLoop_ranOut_iter _ _ 0 amInitState hmax hexit
  have hpost : ∀ (shape : SdssShapeResult) (sxx syy : ℝ),
      (amPostFlags shape maxIter maxIter sxx syy).flags.unweighted = true ∧
      (amPostFlags shape maxIter maxIter sxx syy).flags.maxIterFlag = true := by
    intro shape sxx syy
    simp only [amPostFlags]
    rw [if_pos trivial]
    split
    · exact ⟨rfl, rfl⟩
    · exact ⟨rfl, rfl⟩
  have hres : (getAdaptiveMoments img bkgd xc yc shiftmax maxIter tol1 tol2
        negative).shape.flags.maxIterFlag = true ∧
      ((getAdaptiveMoments img bkgd xc yc shiftmax maxIter tol1 tol2
          negative).shape.flags.unweighted = true ∨
        (getAdaptiveMoments img bkgd xc yc shiftmax maxIter tol1 tol2
          negative).shape.flags.unweightedBad = true) := by
    have hnan : ¬(FV.isnan xc = true ∨ FV.isnan yc = true) := by
      rw [hx, hy]
      simp
    simp only [getAdaptiveMoments]
    rw [if_neg hnan]
    rcases hlo : amLoop ⟨img, bkgd, xc.val, yc.val, shiftmax, tol1, tol2, negative,
        maxIter⟩ (maxIter.toNat + 2) 0 amInitState with ⟨stL, itL, exL⟩
    rw [hlo] at hexit hiter
    have hex : exL = LoopExit.ranOut := hexit
    have hit : itL = maxIter := hiter
    subst hex
    rw [hit]
    dsimp only
    generalize hshP : amPostFlags stL.shape maxIter maxIter stL.msumxx stL.msumyy = shP
    have hsu := hpost stL.shape stL.msumxx stL.msumyy
    rw [hshP] at hsu
    generalize hfbV : amFallback ⟨img, bkgd, xc.val, yc.val, shiftmax, tol1, tol2,
      negative, maxIter⟩ stL shP = fbV
    have hfb := amFallback_facts ⟨img, bkgd, xc.val, yc.val, shiftmax, tol1, tol2,
      negative, maxIter⟩ stL shP
    rw [hfbV] at hfb
    have hmif : fbV.shape.flags.maxIterFlag = true := by
      rw [hfb.2.2.1]
      exact hsu.2
    have hub : fbV.shape.flags.unweighted = true ∨
        fbV.shape.flags.unweightedBad = true := by
      rcases hfb.2.2.2.2.2 hsu.1 with h | ⟨h1, h2, h3⟩
      · exact Or.inl h
      · exact Or.inr h2
    rcases hft : fbV.threw with _ | e
    · dsimp only
      by_cases hab : fbV.aborted = true
      · rw [if_pos hab]
        exact ⟨hmif, hub⟩
      · rw [if_neg hab]
        have htf := amTail_flags img xc.val yc.val fbV.shape fbV.sigma11W
          fbV.sigma12W fbV.sigma22W fbV.i0
        rcases ht1 : (amTail img xc.val yc.val fbV.shape fbV.sigma11W fbV.sigma12W
            fbV.sigma22W fbV.i0).1 with _ | e2
        · dsimp only
          rw [htf]
          exact ⟨hmif, hub⟩
        · dsimp only
          rw [htf]
          exact ⟨hmif, hub⟩
    · dsimp only
      exact ⟨hmif, hub⟩
  exact ⟨hpost, hiter, hres.1, hres.2⟩

/-- Witness for C5 at concrete inputs: the zero-image `maxIter = 0` run
exhausts the loop, and the amended conclusions hold there. -/
theorem maxIter_exhaustion_flags_witness :
    (FV.fin (0:ℝ)).isnan = false ∧ (0:ℤ) ≤ 0 ∧
    (amLoop pZ0 2 0 amInitState).exit = LoopExit.ranOut ∧
    ((∀ (shape : SdssShapeResult) (sxx syy : ℝ),
        (amPostFlags shape 0 0 sxx syy).flags.unweighted = true ∧
        (amPostFlags shape 0 0 sxx syy).flags.maxIterFlag = true) ∧
      (amLoop pZ0 2 0 amInitState).iter = 0 ∧
      (getAdaptiveMoments imgZero1 0 (.fin 0) (.fin 0) 2 0 (1/100) (1/100)
          false).shape.flags.maxIterFlag = true ∧
      ((getAdaptiveMoments imgZero1 0 (.fin 0) (.fin 0) 2 0 (1/100) (1/100)
          false).shape.flags.unweighted = true ∨
        (getAdaptiveMoments imgZero1 0 (.fin 0) (.fin 0) 2 0 (1/100) (1/100)
          false).shape.flags.unweightedBad = true)) := by
  have hexit : (amLoop pZ0 2 0 amInitState).exit = LoopExit.ranOut := by
    rw [amLoop_pZ0]
  exact ⟨rfl, le_refl 0, hexit,
    maxIter_exhaustion_flags imgZero1 0 (.fin 0) (.fin 0) 2 0 (1/100) (1/100)
      false rfl rfl (le_refl 0) hexit⟩

/-- The weighted value of the single pixel of `imgOnePix` seen from centre
`(1/2, 1/2)` with the initial weights: `exp(-1/6)`. -/
noncomputable def expSixth : ℝ := Real.exp (-(1/6))

/-- The iteration parameters that `getAdaptiveMoments` builds for
`imgOnePix` at centre `(1/2, 1/2)`, background `0`, `shiftmax = 2`,
`maxIter = 100` and tolerances `1/100`. -/
noncomputable def pHalf : AmParams := ⟨imgOnePix, 0, 1/2, 1/2, 2, 1/100, 1/100, false, 100⟩

lemma sqrt_onePointFive_bounds : (6/5 : ℝ) < Real.sqrt 1.5 ∧ Real.sqrt 1.5 < 5/4 := by
  have h := Real.sq_sqrt (show (0:ℝ) ≤ 1.5 by norm_num)
  have hnn := Real.sqrt_nonneg (1.5:ℝ)
  constructor
  · nlinarith
  · nlinarith

lemma bboxHalf_eval :
    computeAdaptiveMomentsBBox imgOnePix.bboxLocal (1/2) (1/2) 1.5 1.5 =
      ⟨0, 0, 0, 0⟩ := by
  have hs := sqrt_onePointFive_bounds
  unfold computeAdaptiveMomentsBBox
  rw [max_self]
  rw [min_eq_left (by nlinarith [hs.2] : 4 * Real.sqrt 1.5 ≤ 1000)]
  unfold boxIOfBoxD
  have hfl : ⌊(1/2 : ℝ) - 4 * Real.sqrt 1.5 + 0.5⌋ = -4 := by
    rw [Int.floor_eq_iff]
    constructor
    · push_cast
      nlinarith [hs.2]
    · push_cast
      nlinarith [hs.1]
  have hce : ⌈(1/2 : ℝ) + 4 * Real.sqrt 1.5 - 0.5⌉ = 5 := by
    rw [Int.ceil_eq_iff]
    constructor
    · push_cast
      nlinarith [hs.1]
    · push_cast
      nlinarith [hs.2]
  rw [hfl, hce]
  unfold Img.bboxLocal imgOnePix BoxI.clip
  norm_num

lemma gwStart_eval : getWeightsR 1.5 0 1.5 =
    ⟨true, .fin 2.25, .fin (2/3), .fin 0, .fin (2/3)⟩ := by
  rw [getWeightsR_of_ge (by rw [FLT_EPSILON]; norm_num)]
  norm_num

/-- One-pixel evaluation of the non-interpolated contribution at a given
value `q` of the Gaussian exponent. -/
lemma momContribNI_q (xcen ycen bkgd w11 w12 w22 v : ℝ) (j i : ℤ) (q : ℝ)
    (hq : ((j:ℝ) - xcen) * ((j:ℝ) - xcen) * w11 +
      2 * (((j:ℝ) - xcen) * ((i:ℝ) - ycen)) * w12 +
      ((i:ℝ) - ycen) * ((i:ℝ) - ycen) * w22 = q) (hle : q ≤ 14) :
    momContribNI xcen ycen bkgd w11 w12 w22 v j i =
      ⟨(v - bkgd) * Real.exp (-0.5 * q),
       (v - bkgd) * Real.exp (-0.5 * q) * (j:ℝ),
       (v - bkgd) * Real.exp (-0.5 * q) * (i:ℝ),
       ((j:ℝ) - xcen) * ((j:ℝ) - xcen) * ((v - bkgd) * Real.exp (-0.5 * q)),
       ((j:ℝ) - xcen) * ((i:ℝ) - ycen) * ((v - bkgd) * Real.exp (-0.5 * q)),
       ((i:ℝ) - ycen) * ((i:ℝ) - ycen) * ((v - bkgd) * Real.exp (-0.5 * q)),
       q * q * ((v - bkgd) * Real.exp (-0.5 * q))⟩ := by
  simp only [momContribNI]
  rw [hq]
  rw [if_pos hle]

lemma momContrib_half_weighted :
    momContrib (1/2) (1/2) 0 false (2/3) 0 (2/3) (imgOnePix.pix 0 0) 0 0 =
      ⟨expSixth, 0, 0, expSixth / 4, expSixth / 4, expSixth / 4,
        expSixth / 9⟩ := by
  show momContribNI (1/2) (1/2) 0 (2/3) 0 (2/3) (imgOnePix.pix 0 0) 0 0 = _
  rw [show imgOnePix.pix 0 0 = (1:ℝ) from rfl]
  rw [momContribNI_q (1/2) (1/2) 0 (2/3) 0 (2/3) 1 0 0 (1/3) (by norm_num)
    (by norm_num)]
  rw [show (-0.5 * (1/3 : ℝ)) = -(1/6) from by norm_num]
  unfold expSixth
  ext <;> (norm_num; try ring)

lemma momContrib_half_flat :
    momContrib (1/2) (1/2) 0 false 0 0 0 (imgOnePix.pix 0 0) 0 0 =
      ⟨1, 0, 0, 1/4, 1/4, 1/4, 0⟩ := by
  show momContribNI (1/2) (1/2) 0 0 0 0 (imgOnePix.pix 0 0) 0 0 = _
  rw [show imgOnePix.pix 0 0 = (1:ℝ) from rfl]
  rw [momContribNI_q (1/2) (1/2) 0 0 0 0 1 0 0 0 (by norm_num) (by norm_num)]
  rw [show (-0.5 * (0 : ℝ)) = 0 from by norm_num]
  ext <;> norm_num [Real.exp_zero]

lemma calcmom_half_weighted :
    calcmom imgOnePix (1/2) (1/2) ⟨0, 0, 0, 0⟩ 0 false (2/3) 0 (2/3) false =
      .ok ⟨.fin (expSixth / (Real.pi * (3/2))),
        ⟨expSixth, 0, 0, expSixth / 4, expSixth / 4, expSixth / 4,
          expSixth / 9⟩, 0⟩ := by
  have hpos : (0:ℝ) < expSixth := by
    unfold expSixth
    exact Real.exp_pos _
  have haccum : calcmomAccum imgOnePix (1/2) (1/2) 0 false (2/3) 0 (2/3)
      ⟨0, 0, 0, 0⟩ = ⟨expSixth, 0, 0, expSixth / 4, expSixth / 4, expSixth / 4,
        expSixth / 9⟩ := by
    unfold calcmomAccum
    rw [intRange_zero_zero]
    simp only [List.foldl_cons, List.foldl_nil]
    rw [momContrib_half_weighted]
    unfold Moms.add Moms.zero
    ext <;> norm_num
  have hi0 : calcmomI0 (2/3) 0 (2/3) expSixth =
      .fin (expSixth / (Real.pi * (3/2))) := by
    rw [calcmomI0_of_ok expSixth (by rw [FLT_EPSILON]; norm_num)]
    rw [show (1 / ((2/3:ℝ) * (2/3) - 0 * 0)) = (3/2)^2 by norm_num]
    rw [Real.sqrt_sq (by norm_num : (0:ℝ) ≤ 3/2)]
  unfold calcmom
  rw [if_neg (by norm_num), if_neg (by simp [imgOnePix])]
  simp only [haccum, hi0]
  rw [if_pos (show expSixth > 0 ∧ expSixth / 4 > 0 ∧ expSixth / 4 > 0 from
    ⟨hpos, by positivity, by positivity⟩)]
  simp

lemma calcmom_half_flat :
    calcmom imgOnePix (1/2) (1/2) ⟨0, 0, 0, 0⟩ 0 false 0 0 0 false =
      .ok ⟨.nan, ⟨1, 0, 0, 1/4, 1/4, 1/4, 0⟩, 0⟩ := by
  have haccum : calcmomAccum imgOnePix (1/2) (1/2) 0 false 0 0 0
      ⟨0, 0, 0, 0⟩ = ⟨1, 0, 0, 1/4, 1/4, 1/4, 0⟩ := by
    unfold calcmomAccum
    rw [intRange_zero_zero]
    simp only [List.foldl_cons, List.foldl_nil]
    rw [momContrib_half_flat]
    unfold Moms.add Moms.zero
    ext <;> norm_num
  have hi0 : calcmomI0 0 0 0 (1:ℝ) = .nan := by
    apply calcmomI0_of_fail
    rw [FLT_EPSILON]
    norm_num
  unfold calcmom
  rw [if_neg (by norm_num), if_neg (by simp [imgOnePix])]
  simp only [haccum, hi0]
  rw [if_pos (show (1:ℝ) > 0 ∧ (1/4:ℝ) > 0 ∧ (1/4:ℝ) > 0 by norm_num)]
  simp

/-- The iteration state in which the `imgOnePix` run at centre
`(1/2, 1/2)` breaks out of the loop: the first object covariance is the
singular `(1/4, 1/4, 1/4)`, so `getWeights` on it fails and the
`unweighted` flag is set. -/
noncomputable def stHalf : AmState :=
  ⟨{ SdssShapeResult.init with
       x := .fin 0, y := .fin 0,
       flags := ⟨false, false, true, false, false, false⟩ },
    1.5, 0, 1.5, 2/3, 0, 2/3, 0, 1, 1/4, false, ⟨0, 0, 0, 0⟩,
    .fin (expSixth / (Real.pi * (3/2))),
    expSixth, 0, 0, expSixth / 4, expSixth / 4, expSixth / 4, expSixth / 9⟩

lemma amIterTail_half (st st2 : AmState) :
    amIterTail pHalf 0 st st2
      ⟨.fin (expSixth / (Real.pi * (3/2))),
        ⟨expSixth, 0, 0, expSixth / 4, expSixth / 4, expSixth / 4, expSixth / 9⟩, 0⟩
      1000000 (2/3) 0 (2/3) =
    .inl ⟨{ st2 with
            shape := setUnweighted { st2.shape with x := .fin 0, y := .fin 0 },
            e1old := 0, e2old := 1, s11owOld := 1/4 }, 0, .breakFlag⟩ := by
  have he : expSixth ≠ 0 := by
    unfold expSixth
    exact Real.exp_ne_zero _
  have hsx : (0:ℝ) / expSixth = 0 := zero_div _
  have hs11 : expSixth / 4 / expSixth = 1/4 := by
    rw [div_div, mul_comm, div_mul_cancel_left₀ he]
    norm_num
  have habs : ¬(|(0:ℝ) - pHalf.xcen| > pHalf.shiftmax ∨
      |(0:ℝ) - pHalf.ycen| > pHalf.shiftmax) := by
    show ¬(|(0:ℝ) - 1/2| > 2 ∨ |(0:ℝ) - 1/2| > 2)
    have h12 : |(0:ℝ) - 1/2| = 1/2 := by
      rw [show (0:ℝ) - 1/2 = -(1/2) by norm_num, abs_neg,
        abs_of_nonneg (by norm_num : (0:ℝ) ≤ 1/2)]
    rw [h12]
    norm_num
  have hgw2 : (getWeightsR (1/4) (1/4) (1/4)).ok = false := by
    rw [getWeightsR_of_lt (by rw [FLT_EPSILON]; norm_num)]
  simp only [amIterTail]
  rw [hsx, hs11]
  rw [if_neg habs]
  rw [if_neg (show ¬((1/4:ℝ) ≤ 0 ∨ (1/4:ℝ) ≤ 0) by norm_num)]
  rw [if_neg (show ¬((0:ℤ) < 0 ∧
      |((1/4:ℝ) - 1/4) / (1/4 + 1/4) - st.e1old| < pHalf.tol1 ∧
      |2 * (1/4:ℝ) / (1/4 + 1/4) - st.e2old| < pHalf.tol1 ∧
      |(1/4:ℝ) / 1000000 - 1| < pHalf.tol2) from fun h =>
    absurd h.1 (by norm_num))]
  rw [if_pos hgw2]
  simp only [Sum.inl.injEq, LoopOut.mk.injEq, AmState.mk.injEq]
  norm_num

lemma amLoopBody_half :
    amLoopBody pHalf 0 amInitState = .inl ⟨stHalf, 0, .breakFlag⟩ := by
  simp only [amLoopBody, amInitState]
  rw [show pHalf.img = imgOnePix from rfl, show pHalf.xcen = (1/2:ℝ) from rfl,
    show pHalf.ycen = (1/2:ℝ) from rfl, show pHalf.bkgd = (0:ℝ) from rfl,
    show pHalf.negative = false from rfl]
  rw [bboxHalf_eval]
  simp only [gwStart_eval]
  dsimp only [FV.val]
  rw [if_neg (show ¬(true = false) by simp)]
  rw [if_neg (show ¬((1.5:ℝ) * 1.5 < 0 * 0 - FLT_EPSILON) from by
    rw [FLT_EPSILON]; norm_num)]
  rw [show shouldInterp 1.5 1.5 2.25 = false from by
    unfold shouldInterp
    rw [if_neg (by norm_num), if_neg (by norm_num), if_neg (by norm_num)]]
  simp only [Bool.false_and, Bool.and_false, Bool.false_or, Bool.or_false]
  simp only [if_neg (show ¬(false = true) by simp)]
  rw [calcmom_half_weighted]
  dsimp only
  rw [if_neg (show ¬((0:ℤ) < 0) by norm_num)]
  rw [amIterTail_half]
  simp only [stHalf, Sum.inl.injEq, LoopOut.mk.injEq, AmState.mk.injEq,
    setUnweighted, SdssShapeResult.mk.injEq, Flags.mk.injEq, SdssShapeResult.init,
    Flags.init]

lemma amLoop_half : amLoop pHalf 102 0 amInitState = ⟨stHalf, 0, .breakFlag⟩ := by
  rw [amLoop]
  rw [if_pos (show (0:ℤ) < pHalf.maxIter from by norm_num [pHalf])]
  rw [amLoopBody_half]

lemma amPostFlags_half :
    amPostFlags stHalf.shape 0 100 stHalf.msumxx stHalf.msumyy = stHalf.shape := by
  unfold amPostFlags
  rw [if_neg (show ¬((0:ℤ) = 100) by norm_num)]
  rw [if_neg (show ¬(stHalf.msumxx + stHalf.msumyy = 0) from by
    show ¬(expSixth / 4 + expSixth / 4 = 0)
    have hpos : (0:ℝ) < expSixth := by
      unfold expSixth
      exact Real.exp_pos _
    intro h
    nlinarith)]

lemma amFallback_half :
    amFallback pHalf stHalf stHalf.shape =
      ⟨none, false, stHalf.shape, 1/4, 1/4, 1/4, .nan⟩ := by
  have hcm : calcmom pHalf.img pHalf.xcen pHalf.ycen stHalf.bbox pHalf.bkgd
      stHalf.interpflag 0 0 0 pHalf.negative =
      .ok ⟨.nan, ⟨1, 0, 0, 1/4, 1/4, 1/4, 0⟩, 0⟩ := by
    show calcmom imgOnePix (1/2) (1/2) ⟨0, 0, 0, 0⟩ 0 false 0 0 0 false = _
    exact calcmom_half_flat
  simp only [amFallback]
  rw [if_pos (show stHalf.shape.flags.unweighted = true from rfl)]
  rw [hcm]
  dsimp only
  rw [if_neg (show ¬((0:ℤ) < 0 ∨ (pHalf.negative = false ∧ (1:ℝ) ≤ 0) ∨
      (pHalf.negative = true ∧ (1:ℝ) ≥ 0)) from by
    rw [show pHalf.negative = false from rfl]
    norm_num)]
  simp only [FallbackOut.mk.injEq]
  norm_num

lemma amTail_half :
    amTail imgOnePix (1/2) (1/2) stHalf.shape (1/4) (1/4) (1/4) .nan =
      (none, { stHalf.shape with
               instFlux := .nan, xx := .fin (1/4),
               xy := .fin (1/4), yy := .fin (1/4) }) := by
  simp only [amTail]
  rw [if_pos (show (1/4:ℝ) + 1/4 ≠ 0 by norm_num)]
  have hf1 : ⌊(1/2:ℝ) + 0.5⌋ = 1 := by
    rw [show (1/2:ℝ) + 0.5 = 1 by norm_num]
    exact Int.floor_one
  rw [if_neg (show ¬(0 ≤ ⌊(1/2:ℝ) + 0.5⌋ ∧ ⌊(1/2:ℝ) + 0.5⌋ < imgOnePix.width ∧
      0 ≤ ⌊(1/2:ℝ) + 0.5⌋ ∧ ⌊(1/2:ℝ) + 0.5⌋ < imgOnePix.height) from by
    rw [hf1]
    intro h
    exact absurd h.2.1 (by norm_num [imgOnePix]))]

lemma getAM_half :
    getAdaptiveMoments imgOnePix 0 (.fin (1/2)) (.fin (1/2)) 2 100 (1/100)
        (1/100) false =
      ⟨none, true, { stHalf.shape with
        instFlux := .nan, xx := .fin (1/4),
        xy := .fin (1/4), yy := .fin (1/4) }⟩ := by
  simp only [getAdaptiveMoments]
  rw [if_neg (by simp [FV.isnan])]
  rw [show (⟨imgOnePix, 0, (FV.fin (1/2)).val, (FV.fin (1/2)).val, 2, 1/100, 1/100,
    false, (100:ℤ)⟩ : AmParams) = pHalf from rfl]
  rw [show ((100:ℤ).toNat + 2) = 102 from rfl]
  rw [amLoop_half]
  dsimp only
  rw [amPostFlags_half]
  rw [amFallback_half]
  dsimp only
  rw [if_neg (show ¬(false = true) by simp)]
  rw [show (FV.fin (1/2:ℝ)).val = (1/2:ℝ) from rfl]
  rw [amTail_half]

/-- The result assembled for the `imgOnePix` run at centre `(1/2, 1/2)`:
numeric moments from the successful unweighted fallback, with the
`unweighted` flag and the derived umbrella `failure` flag both set. -/
noncomputable def resHalf : SdssShapeResult :=
  { SdssShapeResult.init with
    x := .fin 0, y := .fin 0,
    xx := .fin (1/4), xy := .fin (1/4), yy := .fin (1/4),
    instFlux := .nan, instFluxErr := .nan,
    flags := ⟨true, false, true, false, false, false⟩ }

lemma amAssemble_half :
    amAssemble imgOnePix ⟨none, true, { stHalf.shape with
      instFlux := .nan, xx := .fin (1/4),
      xy := .fin (1/4), yy := .fin (1/4) }⟩ = .ok resHalf := by
  simp only [amAssemble, stHalf]
  simp only [Option.isSome_none, Bool.not_true, Bool.or_false, Bool.true_or]
  rw [if_pos trivial]
  simp only [show (true = false) = False from by simp, and_false, if_false]
  simp only [FV.mul, FV.sub, FV.sqrtv, FV.add]
  rw [if_neg (show ¬(imgOnePix.hasVariance = true) from by simp [imgOnePix])]
  simp only [resHalf, SdssShapeResult.init, Flags.init, Except.ok.injEq,
    SdssShapeResult.mk.injEq, Flags.mk.injEq, FV.fin.injEq]
  norm_num [imgOnePix]

lemma computeAM_half :
    computeAdaptiveMoments imgOnePix (.fin (1/2)) (.fin (1/2)) false
        ⟨0, 100, 2, 1/100, 1/100⟩ = .ok resHalf := by
  simp only [computeAdaptiveMoments]
  rw [if_neg (show ¬((2:ℝ) < 2) by norm_num)]
  rw [if_neg (show ¬((2:ℝ) > 10) by norm_num)]
  rw [show (FV.fin (1/2:ℝ)).sub (FV.fin (imgOnePix.x0 : ℝ)) = FV.fin (1/2) from by
    rw [show ((imgOnePix.x0 : ℤ) : ℝ) = 0 from by norm_num [imgOnePix]]
    show FV.fin (1/2 - 0) = FV.fin (1/2)
    norm_num]
  rw [show (FV.fin (1/2:ℝ)).sub (FV.fin (imgOnePix.y0 : ℝ)) = FV.fin (1/2) from by
    rw [show ((imgOnePix.y0 : ℤ) : ℝ) = 0 from by norm_num [imgOnePix]]
    show FV.fin (1/2 - 0) = FV.fin (1/2)
    norm_num]
  rw [getAM_half]
  exact amAssemble_half

/-- Witness for C10 at a concrete input: a `computeAdaptiveMoments` run
that returns a result (without throwing) whose `unweighted` flag is set,
on which the umbrella `failure` flag is set as the theorem asserts. -/
theorem computeAM_unweighted_shift_failure_witness :
    computeAdaptiveMoments imgOnePix (.fin (1/2)) (.fin (1/2)) false
        ⟨0, 100, 2, 1/100, 1/100⟩ = .ok resHalf ∧
    (resHalf.flags.unweighted = true ∨ resHalf.flags.shift = true) ∧
    resHalf.flags.failure = true := by
  refine ⟨computeAM_half, Or.inl rfl, ?_⟩
  exact computeAM_unweighted_shift_failure computeAM_half (Or.inl rfl)

end MeasBase
